import Mathlib

/-!
Verification of the paginated filtered aggregate-read pattern of the
perm-backend repository (Express + drizzle-orm + PostgreSQL).

The embedding models each route handler of `src/routes/users.ts`,
`src/routes/subjects.ts`, `src/routes/departments.ts` and the classes router
as a pure function from a database snapshot (lists of rows) and the request
inputs to the JSON response it produces.  SQL queries are modelled by list
combinators (left join, filter, group-by, order-by, limit/offset); JavaScript
number coercion (`+x`, `Number(x)`, `Math.max`, `Math.ceil`) is modelled on
`Option String → JsNum` where `JsNum` is NaN or an exact rational.
-/

/-! ## Data model

Row types for the tables referenced by the routes.  The `user` table follows
`src/db/schema/auth.ts`; the `departments`, `subjects`, `classes` and
`enrollments` tables follow the columns the routes read (their schema file is
not part of the sources; column list per spec section 3).  Timestamps are
modelled as naturals.  -/

inductive Role where
  | student
  | teacher
  | admin
deriving DecidableEq

def roleText : Role → String
  | .student => "student"
  | .teacher => "teacher"
  | .admin => "admin"

structure User where
  id : String
  name : String
  email : String
  emailVerified : Bool
  image : Option String
  role : Role
  createdAt : Nat
deriving DecidableEq

structure Department where
  id : Nat
  code : String
  name : String
  description : String
  createdAt : Nat
deriving DecidableEq

structure Subject where
  id : Nat
  departmentId : Nat
  name : String
  code : String
  description : String
  createdAt : Nat
deriving DecidableEq

structure ClassRow where
  id : Nat
  subjectId : Nat
  teacherId : String
  name : String
  inviteCode : String
  capacity : Nat
  status : String
  createdAt : Nat
deriving DecidableEq

structure Enrollment where
  id : Nat
  studentId : String
  classId : Nat
  createdAt : Nat
deriving DecidableEq

/-- A database snapshot: the contents of the five tables the read routes use. -/
structure DB where
  users : List User
  departments : List Department
  subjects : List Subject
  classes : List ClassRow
  enrollments : List Enrollment

/-! ## JavaScript number coercion

`+x` and `Number(x)` perform the same ToNumber conversion on strings.  The
model covers plain decimal literals (optional sign, digits, optional decimal
point); every other non-empty non-numeric string maps to NaN, as in JS.
(JS additionally accepts hex / exponent / `Infinity` forms; the routes treat
every non-finite result alike, and no theorem below evaluates the parser on
such inputs.)  Rationals are built with `Rat.divInt` so that all concrete
evaluations reduce in the kernel. -/

inductive JsNum where
  | nan : JsNum
  | num : ℚ → JsNum
deriving DecidableEq

def isWsChar (c : Char) : Bool :=
  c == ' ' || c == '\t' || c == '\n' || c == '\r'

def trimWs (l : List Char) : List Char :=
  ((l.dropWhile isWsChar).reverse.dropWhile isWsChar).reverse

def isDigitChar (c : Char) : Bool :=
  48 ≤ c.toNat && c.toNat ≤ 57

def digitsVal (l : List Char) : Nat :=
  l.foldl (fun acc c => acc * 10 + (c.toNat - 48)) 0

/-- Parse an unsigned decimal literal `digits [ "." digits ]` (either digit
group may be empty, but not both, as in JS where `".5"` and `"5."` parse). -/
def parseUnsignedDec (l : List Char) : Option ℚ :=
  let intPart := l.takeWhile isDigitChar
  let rest := l.dropWhile isDigitChar
  match rest with
  | [] =>
    if intPart.isEmpty then none
    else some (Rat.divInt (Int.ofNat (digitsVal intPart)) 1)
  | '.' :: frac =>
    if frac.all isDigitChar ∧ ¬(intPart.isEmpty ∧ frac.isEmpty) then
      some (Rat.divInt
        (Int.ofNat (digitsVal intPart * 10 ^ frac.length + digitsVal frac))
        (Int.ofNat (10 ^ frac.length)))
    else none
  | _ => none

def jsNeg : JsNum → JsNum
  | .nan => .nan
  | .num q => .num (Rat.divInt (-q.num) q.den)

def ofParse : Option ℚ → JsNum
  | none => .nan
  | some q => .num q

/-- JS ToNumber on a string (`+s`, `Number(s)`): trimmed empty string is `0`,
decimal literals parse exactly, everything else is NaN. -/
def strToNumber (s : String) : JsNum :=
  match trimWs s.data with
  | [] => .num 0
  | '+' :: rest => ofParse (parseUnsignedDec rest)
  | '-' :: rest => jsNeg (ofParse (parseUnsignedDec rest))
  | l => ofParse (parseUnsignedDec l)

/-- The numeric value of an optional query parameter: absent parameters take
the destructuring default (`page = 1`, `limit = 10`), present ones go through
ToNumber. -/
def paramNumber (dflt : ℚ) : Option String → JsNum
  | none => .num dflt
  | some s => strToNumber s

/-- `Math.max(1, x)`: NaN propagates (Math.max returns NaN if any argument is
NaN); otherwise the larger value. -/
def jsMax1 : JsNum → JsNum
  | .nan => .nan
  | .num q => .num (if q < 1 then 1 else q)

def jsSub : JsNum → JsNum → JsNum
  | .num a, .num b =>
    .num (Rat.divInt (a.num * b.den - b.num * a.den) ((a.den : Int) * b.den))
  | _, _ => .nan

def jsMul : JsNum → JsNum → JsNum
  | .num a, .num b => .num (Rat.divInt (a.num * b.num) ((a.den : Int) * b.den))
  | _, _ => .nan

/-- The value handed to SQL `LIMIT` / `OFFSET`.  The database driver accepts
only non-negative integral values there; NaN or a fractional value makes the
query fail (caught by the route's try/catch, producing the 500 response). -/
def jsToNonnegInt : JsNum → Option Nat
  | .nan => none
  | .num q => if q.den = 1 ∧ 0 ≤ q.num then some q.num.toNat else none

/-- `Math.ceil(t / l)` as computed for `totalPages` (`t` is the count,
`l` the effective limit, never zero since it is clamped to at least 1).
Written on the exact rational `t * l.den / l.num = t / l`. -/
def jsCeilDiv (t : Nat) (l : ℚ) : Int :=
  ⌈(Rat.divInt ((t : Int) * l.den) l.num : ℚ)⌉

/-- JS truthiness of `q.id` for a `Nat` key: `0` is falsy. -/
def natTruthy (n : Nat) : Bool := n != 0

/-- JS truthiness of an optional string query parameter: absent and `""` are
falsy. -/
def strTruthy : Option String → Bool
  | none => false
  | some s => !(s == "")

/-! ## SQL query combinators -/

/-- The rows a `LEFT JOIN` produces for one left row: one row per matching
right row, or a single row with a null right side when nothing matches. -/
def joinBlock {α β : Type} (a : α) (rs : List β) (cond : α → β → Bool) :
    List (α × Option β) :=
  match rs.filter (fun b => cond a b) with
  | [] => [(a, none)]
  | ms => ms.map (fun b => (a, some b))

/-- `LEFT JOIN`: each left row is replicated once per matching right row, or
kept once with a null right side when nothing matches. -/
def leftJoinOpt {α β : Type} (ls : List α) (rs : List β) (cond : α → β → Bool) :
    List (α × Option β) :=
  ls.flatMap (fun a => joinBlock a rs cond)

/-- `WHERE`: drizzle treats an `undefined` where-clause as no restriction. -/
def applyWhere {α : Type} (w : Option (α → Bool)) (rows : List α) : List α :=
  match w with
  | none => rows
  | some p => rows.filter p

/-- Fold the accumulated filter conditions with `and(...)`; an empty list
yields `undefined` (no WHERE clause). -/
def andConds {α : Type} (conds : List (α → Bool)) : Option (α → Bool) :=
  if conds.isEmpty then none else some (fun a => conds.all (fun c => c a))

/-- Insert into a descending-by-key list, keeping it descending. -/
def insertByKeyDesc {α : Type} (key : α → Nat) (a : α) : List α → List α
  | [] => [a]
  | b :: bs =>
    if key b ≤ key a then a :: b :: bs else b :: insertByKeyDesc key a bs

/-- `ORDER BY key DESC` (insertion sort; SQL guarantees no particular order
among equal keys, so any sort models it). -/
def sortByKeyDesc {α : Type} (key : α → Nat) : List α → List α
  | [] => []
  | a :: as => insertByKeyDesc key a (sortByKeyDesc key as)

/-- `LIMIT lim OFFSET off`. -/
def paginate (off lim : Nat) (rows : List α) : List α :=
  (rows.drop off).take lim

/-- `count(*)` over a relation. -/
def sqlCount (rows : List α) : Nat := rows.length

/-- `count(col)` over the joined rows of one group: counts non-null values. -/
def sqlCountSome (l : List (Option β)) : Nat := (l.filter Option.isSome).length

/-- One step of `GROUP BY`: route a row to its key's group (groups appear in
first-occurrence order). -/
def addToGroups {κ ρ : Type} [DecidableEq κ] (gs : List (κ × List ρ)) (k : κ) (r : ρ) :
    List (κ × List ρ) :=
  match gs with
  | [] => [(k, [r])]
  | (k0, rs0) :: rest =>
    if k0 = k then (k0, rs0 ++ [r]) :: rest
    else (k0, rs0) :: addToGroups rest k r

/-- `GROUP BY key` on a row list. -/
def groupPairs {κ ρ : Type} [DecidableEq κ] (key : ρ → κ) (rows : List ρ) :
    List (κ × List ρ) :=
  rows.foldl (fun gs r => addToGroups gs (key r) r) []

/-! ## ILIKE -/

/-- All suffixes of a character list, longest first (the list itself down to
`[]`). -/
def suffixesOf : List Char → List (List Char)
  | [] => [[]]
  | c :: cs => (c :: cs) :: suffixesOf cs

/-- SQL LIKE pattern matching over character lists: `%` matches any sequence,
`_` any single character. -/
def likeMatch : List Char → List Char → Bool
  | [], cs => cs.isEmpty
  | '%' :: ps, cs => (suffixesOf cs).any (fun cs2 => likeMatch ps cs2)
  | '_' :: ps, cs =>
    match cs with
    | [] => false
    | _ :: cs2 => likeMatch ps cs2
  | p :: ps, cs =>
    match cs with
    | [] => false
    | c :: cs2 => p == c && likeMatch ps cs2

/-- ASCII lower-casing of one character (the case folding ILIKE applies on
the data in scope). -/
def charLower (c : Char) : Char :=
  if 65 ≤ c.toNat ∧ c.toNat ≤ 90 then Char.ofNat (c.toNat + 32) else c

/-- `ILIKE`: case-insensitive LIKE. -/
def ilike (s pattern : String) : Bool :=
  likeMatch (pattern.data.map charLower) (s.data.map charLower)

/-- The match pattern built for every text search input: the template literal
interpolation percent-input-percent, with no escaping applied. -/
def ilikePattern (input : String) : String := "%" ++ input ++ "%"

/-! ## List endpoint responses -/

/-- The pagination metadata object echoed by every list endpoint.  `page` and
`limit` echo the clamped JS numbers (rationals); `totalPages` is
`Math.ceil(total / limit)`. -/
structure Pagination where
  page : ℚ
  limit : ℚ
  total : Nat
  totalPages : Int
deriving DecidableEq

/-- A list endpoint response: `200 { data, pagination }`, or the generic
`500 { error }` produced by the catch-all when the database rejects the
query. -/
inductive ListResp (ρ : Type) where
  | ok (data : List ρ) (pagination : Pagination)
  | serverError (error : String)
deriving DecidableEq

def listRespTotal {ρ : Type} : ListResp ρ → Option Nat
  | .ok _ pg => some pg.total
  | .serverError _ => none

def listRespData {ρ : Type} : ListResp ρ → Option (List ρ)
  | .ok data _ => some data
  | .serverError _ => none

/-! ## GET /api/users (src/routes/users.ts) -/

def usersSearchCond (s : String) : User → Bool :=
  fun u => ilike u.name (ilikePattern s) || ilike u.email (ilikePattern s)

/-- The accumulated `filterConditions` array: `if (search)` and `if (role)`
are JS truthiness tests, so absent and empty-string inputs contribute no
predicate. -/
def usersFilterConditions (search role : Option String) : List (User → Bool) :=
  (match search with
   | some s => if s ≠ "" then [usersSearchCond s] else []
   | none => []) ++
  (match role with
   | some r => if r ≠ "" then [fun u => roleText u.role == r] else []
   | none => [])

def usersWhere (search role : Option String) : Option (User → Bool) :=
  andConds (usersFilterConditions search role)

/-- The count query: `count(*) from user where whereClause`. -/
def usersTotal (db : DB) (search role : Option String) : Nat :=
  sqlCount (applyWhere (usersWhere search role) db.users)

/-- The data query before limit/offset: same filtered relation, ordered by
`desc(user.createdAt)`. -/
def usersFullData (db : DB) (search role : Option String) : List User :=
  sortByKeyDesc (fun u => u.createdAt) (applyWhere (usersWhere search role) db.users)

def usersIndexCore (db : DB) (search role : Option String)
    (pageV limitV : JsNum) : ListResp User :=
  let currentPage := jsMax1 pageV
  let limitPerPage := jsMax1 limitV
  let offsetV := jsMul (jsSub currentPage (.num 1)) limitPerPage
  let totalCount := usersTotal db search role
  match jsToNonnegInt offsetV, jsToNonnegInt limitPerPage,
      currentPage, limitPerPage with
  | some off, some lim, .num pq, .num lq =>
    .ok (paginate off lim (usersFullData db search role))
      ⟨pq, lq, totalCount, jsCeilDiv totalCount lq⟩
  | _, _, _, _ => .serverError "Failed to fetch users"

def usersIndex (db : DB) (search role page limit : Option String) :
    ListResp User :=
  usersIndexCore db search role (paramNumber 1 page) (paramNumber 10 limit)

/-! ## GET /api/subjects (src/routes/subjects.ts)

Both the count query and the data query run over
`subjects leftJoin departments`; the count query deliberately includes the
join (source comment: the where clause may reference the department). -/

def subjectsJoin (db : DB) : List (Subject × Option Department) :=
  leftJoinOpt db.subjects db.departments (fun s d => s.departmentId == d.id)

def subjectsSearchCond (s : String) : Subject × Option Department → Bool :=
  fun r => ilike r.1.name (ilikePattern s) || ilike r.1.code (ilikePattern s)

def subjectsDepartmentCond (d : String) : Subject × Option Department → Bool :=
  fun r =>
    match r.2 with
    | some dep => ilike dep.name (ilikePattern d)
    | none => false

def subjectsFilterConditions (search department : Option String) :
    List (Subject × Option Department → Bool) :=
  (match search with
   | some s => if s ≠ "" then [subjectsSearchCond s] else []
   | none => []) ++
  (match department with
   | some d => if d ≠ "" then [subjectsDepartmentCond d] else []
   | none => [])

def subjectsWhere (search department : Option String) :
    Option (Subject × Option Department → Bool) :=
  andConds (subjectsFilterConditions search department)

def subjectsTotal (db : DB) (search department : Option String) : Nat :=
  sqlCount (applyWhere (subjectsWhere search department) (subjectsJoin db))

def subjectsFullData (db : DB) (search department : Option String) :
    List (Subject × Option Department) :=
  sortByKeyDesc (fun r => r.1.createdAt)
    (applyWhere (subjectsWhere search department) (subjectsJoin db))

def subjectsIndexCore (db : DB) (search department : Option String)
    (pageV limitV : JsNum) : ListResp (Subject × Option Department) :=
  let currentPage := jsMax1 pageV
  let limitPerPage := jsMax1 limitV
  let offsetV := jsMul (jsSub currentPage (.num 1)) limitPerPage
  let totalCount := subjectsTotal db search department
  match jsToNonnegInt offsetV, jsToNonnegInt limitPerPage,
      currentPage, limitPerPage with
  | some off, some lim, .num pq, .num lq =>
    .ok (paginate off lim (subjectsFullData db search department))
      ⟨pq, lq, totalCount, jsCeilDiv totalCount lq⟩
  | _, _, _, _ => .serverError "Failed to fetch subjects"

def subjectsIndex (db : DB) (search department page limit : Option String) :
    ListResp (Subject × Option Department) :=
  subjectsIndexCore db search department
    (paramNumber 1 page) (paramNumber 10 limit)

/-! ## GET /api/departments (src/routes/departments.ts)

The count query runs on the bare `departments` table; the data query
left-joins `subjects` and groups by `departments.id` to attach a
`totalSubjects` aggregate.  Both apply the same `whereClause` (which only
references department columns). -/

def departmentsSearchCond (s : String) : Department → Bool :=
  fun d => ilike d.name (ilikePattern s) || ilike d.code (ilikePattern s)

def departmentsFilterConditions (search : Option String) :
    List (Department → Bool) :=
  match search with
  | some s => if s ≠ "" then [departmentsSearchCond s] else []
  | none => []

def departmentsWhere (search : Option String) : Option (Department → Bool) :=
  andConds (departmentsFilterConditions search)

/-- The shared where-clause read on the joined relation: the drizzle condition
objects reference department columns only, so on a joined row they read the
left (department) side. -/
def liftFst {α β : Type} (w : Option (α → Bool)) : Option (α × β → Bool) :=
  w.map (fun p => fun r => p r.1)

def departmentsTotal (db : DB) (search : Option String) : Nat :=
  sqlCount (applyWhere (departmentsWhere search) db.departments)

structure DepartmentWithCount where
  department : Department
  totalSubjects : Nat
deriving DecidableEq

def departmentsJoin (db : DB) : List (Department × Option Subject) :=
  leftJoinOpt db.departments db.subjects (fun d s => d.id == s.departmentId)

def departmentsGrouped (db : DB) (search : Option String) :
    List (Nat × List (Department × Option Subject)) :=
  groupPairs (fun r => r.1.id)
    (applyWhere (liftFst (departmentsWhere search)) (departmentsJoin db))

/-- Per group: the department's columns and `count(subjects.id)` (non-null
subjects in the group). -/
def departmentsSelect
    (gs : List (Nat × List (Department × Option Subject))) :
    List DepartmentWithCount :=
  gs.filterMap (fun g =>
    match g.2 with
    | [] => none
    | r :: _ => some ⟨r.1, sqlCountSome (g.2.map (fun x => x.2))⟩)

def departmentsFullData (db : DB) (search : Option String) :
    List DepartmentWithCount :=
  sortByKeyDesc (fun r => r.department.createdAt)
    (departmentsSelect (departmentsGrouped db search))

def departmentsIndexCore (db : DB) (search : Option String)
    (pageV limitV : JsNum) : ListResp DepartmentWithCount :=
  let currentPage := jsMax1 pageV
  let limitPerPage := jsMax1 limitV
  let offsetV := jsMul (jsSub currentPage (.num 1)) limitPerPage
  let totalCount := departmentsTotal db search
  match jsToNonnegInt offsetV, jsToNonnegInt limitPerPage,
      currentPage, limitPerPage with
  | some off, some lim, .num pq, .num lq =>
    .ok (paginate off lim (departmentsFullData db search))
      ⟨pq, lq, totalCount, jsCeilDiv totalCount lq⟩
  | _, _, _, _ => .serverError "Failed to fetch departments"

def departmentsIndex (db : DB) (search page limit : Option String) :
    ListResp DepartmentWithCount :=
  departmentsIndexCore db search (paramNumber 1 page) (paramNumber 10 limit)

/-! ## GET /api/classes (classes router)

Count and data queries both run over
`classes leftJoin subjects leftJoin user` with the same where clause. -/

def classesJoin (db : DB) :
    List ((ClassRow × Option Subject) × Option User) :=
  leftJoinOpt (leftJoinOpt db.classes db.subjects (fun c s => c.subjectId == s.id))
    db.users (fun cs u => cs.1.teacherId == u.id)

def classesSearchCond (s : String) :
    (ClassRow × Option Subject) × Option User → Bool :=
  fun r =>
    ilike r.1.1.name (ilikePattern s) || ilike r.1.1.inviteCode (ilikePattern s)

def classesSubjectCond (s : String) :
    (ClassRow × Option Subject) × Option User → Bool :=
  fun r =>
    match r.1.2 with
    | some subj => ilike subj.name (ilikePattern s)
    | none => false

def classesTeacherCond (t : String) :
    (ClassRow × Option Subject) × Option User → Bool :=
  fun r =>
    match r.2 with
    | some u => ilike u.name (ilikePattern t)
    | none => false

def classesFilterConditions (search subject teacher : Option String) :
    List ((ClassRow × Option Subject) × Option User → Bool) :=
  (match search with
   | some s => if s ≠ "" then [classesSearchCond s] else []
   | none => []) ++
  (match subject with
   | some s => if s ≠ "" then [classesSubjectCond s] else []
   | none => []) ++
  (match teacher with
   | some t => if t ≠ "" then [classesTeacherCond t] else []
   | none => [])

def classesWhere (search subject teacher : Option String) :
    Option ((ClassRow × Option Subject) × Option User → Bool) :=
  andConds (classesFilterConditions search subject teacher)

def classesTotal (db : DB) (search subject teacher : Option String) : Nat :=
  sqlCount (applyWhere (classesWhere search subject teacher) (classesJoin db))

structure ClassListRow where
  cls : ClassRow
  subject : Option Subject
  teacher : Option User
deriving DecidableEq

def classesSelect (rows : List ((ClassRow × Option Subject) × Option User)) :
    List ClassListRow :=
  rows.map (fun r => ⟨r.1.1, r.1.2, r.2⟩)

def classesFullData (db : DB) (search subject teacher : Option String) :
    List ClassListRow :=
  sortByKeyDesc (fun r => r.cls.createdAt)
    (classesSelect (applyWhere (classesWhere search subject teacher) (classesJoin db)))

def classesIndexCore (db : DB) (search subject teacher : Option String)
    (pageV limitV : JsNum) : ListResp ClassListRow :=
  let currentPage := jsMax1 pageV
  let limitPerPage := jsMax1 limitV
  let offsetV := jsMul (jsSub currentPage (.num 1)) limitPerPage
  let totalCount := classesTotal db search subject teacher
  match jsToNonnegInt offsetV, jsToNonnegInt limitPerPage,
      currentPage, limitPerPage with
  | some off, some lim, .num pq, .num lq =>
    .ok (paginate off lim (classesFullData db search subject teacher))
      ⟨pq, lq, totalCount, jsCeilDiv totalCount lq⟩
  | _, _, _, _ => .serverError "Failed to fetch classes"

def classesIndex (db : DB) (search subject teacher page limit : Option String) :
    ListResp ClassListRow :=
  classesIndexCore db search subject teacher
    (paramNumber 1 page) (paramNumber 10 limit)

/-! ## JS Map model

`Map.set` keeps the key's original insertion position and replaces its value;
a new key is appended.  `Array.from(map.values())` lists values in key
insertion order; `map.size` is the number of distinct keys. -/

def jsMapSet {α : Type} (m : List (Nat × α)) (k : Nat) (v : α) :
    List (Nat × α) :=
  if m.any (fun p => p.1 == k) then
    m.map (fun p => if p.1 == k then (p.1, v) else p)
  else m ++ [(k, v)]

def jsMapValues {α : Type} (m : List (Nat × α)) : List α :=
  m.map (fun p => p.2)

def jsMapSize {α : Type} (m : List (Nat × α)) : Nat := m.length

/-! ## GET /api/users/:id (src/routes/users.ts)

The fetched user's role selects the branch.  The dedup loops guard with
`if (row.child?.id)`: JS truthiness, so a null child or a child id of `0`
is skipped. -/

def getUserRow (db : DB) (userId : String) : Option User :=
  (db.users.filter (fun u => u.id == userId)).head?

structure TeacherClassRow where
  cls : ClassRow
  subject : Option Subject
  department : Option Department
deriving DecidableEq

/-- Teacher branch query: classes of the teacher, left-joined to subject and
department, ordered by `desc(classes.createdAt)`. -/
def teacherClassesQuery (db : DB) (userId : String) : List TeacherClassRow :=
  sortByKeyDesc (fun r => r.cls.createdAt)
    (((leftJoinOpt
          (leftJoinOpt db.classes db.subjects (fun c s => c.subjectId == s.id))
          db.departments
          (fun cs d =>
            match cs.2 with
            | some s => s.departmentId == d.id
            | none => false)).filter
        (fun r => r.1.1.teacherId == userId)).map
      (fun r => ⟨r.1.1, r.1.2, r.2⟩))

/-- One iteration of the teacher branch's dedup loop: conditionally insert the
row's subject and department into their maps. -/
def teacherMapsStep
    (ms : List (Nat × Subject) × List (Nat × Department))
    (r : TeacherClassRow) :
    List (Nat × Subject) × List (Nat × Department) :=
  let ms1 :=
    match r.subject with
    | some s => if natTruthy s.id then (jsMapSet ms.1 s.id s, ms.2) else ms
    | none => ms
  match r.department with
  | some d => if natTruthy d.id then (ms1.1, jsMapSet ms1.2 d.id d) else ms1
  | none => ms1

def teacherMaps (rows : List TeacherClassRow) :
    List (Nat × Subject) × List (Nat × Department) :=
  rows.foldl teacherMapsStep ([], [])

structure StudentEnrollmentRow where
  enr : Enrollment
  cls : Option ClassRow
  subject : Option Subject
  department : Option Department
  teacher : Option User
deriving DecidableEq

/-- Student branch query: the student's enrollments, left-joined through
class, subject, department and the class's teacher, ordered by
`desc(enrollments.createdAt)`. -/
def studentEnrollmentsQuery (db : DB) (userId : String) :
    List StudentEnrollmentRow :=
  sortByKeyDesc (fun r => r.enr.createdAt)
    (((leftJoinOpt
          (leftJoinOpt
            (leftJoinOpt
              (leftJoinOpt db.enrollments db.classes
                (fun e c => e.classId == c.id))
              db.subjects
              (fun ec s =>
                match ec.2 with
                | some c => c.subjectId == s.id
                | none => false))
            db.departments
            (fun ecs d =>
              match ecs.2 with
              | some s => s.departmentId == d.id
              | none => false))
          db.users
          (fun ecsd u =>
            match ecsd.1.1.2 with
            | some c => c.teacherId == u.id
            | none => false)).filter
        (fun r => r.1.1.1.1.studentId == userId)).map
      (fun r => ⟨r.1.1.1.1, r.1.1.1.2, r.1.1.2, r.1.2, r.2⟩))

/-- One iteration of the student branch's dedup loop. -/
def studentMapsStep
    (ms : List (Nat × ClassRow) × List (Nat × Subject))
    (r : StudentEnrollmentRow) :
    List (Nat × ClassRow) × List (Nat × Subject) :=
  let ms1 :=
    match r.cls with
    | some c => if natTruthy c.id then (jsMapSet ms.1 c.id c, ms.2) else ms
    | none => ms
  match r.subject with
  | some s => if natTruthy s.id then (ms1.1, jsMapSet ms1.2 s.id s) else ms1
  | none => ms1

def studentMaps (rows : List StudentEnrollmentRow) :
    List (Nat × ClassRow) × List (Nat × Subject) :=
  rows.foldl studentMapsStep ([], [])

/-- The value of one top-level key of the user-detail `data` object. -/
inductive UserDetailField where
  | fUser : User → UserDetailField
  | fTeacherClasses : List TeacherClassRow → UserDetailField
  | fEnrollments : List StudentEnrollmentRow → UserDetailField
  | fClasses : List ClassRow → UserDetailField
  | fSubjects : List Subject → UserDetailField
  | fDepartments : List Department → UserDetailField
  | fTotals : List (String × Nat) → UserDetailField
deriving DecidableEq

inductive UserDetailResp where
  | ok (data : List (String × UserDetailField))
  | notFound (error : String)
deriving DecidableEq

def usersShow (db : DB) (userId : String) : UserDetailResp :=
  match getUserRow db userId with
  | none => .notFound "User not found"
  | some userDetails =>
    if userDetails.role = .teacher then
      let classesList := teacherClassesQuery db userId
      let maps := teacherMaps classesList
      .ok [("user", .fUser userDetails),
           ("classes", .fTeacherClasses classesList),
           ("subjects", .fSubjects (jsMapValues maps.1)),
           ("departments", .fDepartments (jsMapValues maps.2)),
           ("totals", .fTotals
             [("classes", classesList.length),
              ("subjects", jsMapSize maps.1),
              ("departments", jsMapSize maps.2)])]
    else if userDetails.role = .student then
      let enrollmentsList := studentEnrollmentsQuery db userId
      let maps := studentMaps enrollmentsList
      .ok [("user", .fUser userDetails),
           ("enrollments", .fEnrollments enrollmentsList),
           ("classes", .fClasses (jsMapValues maps.1)),
           ("subjects", .fSubjects (jsMapValues maps.2)),
           ("totals", .fTotals
             [("enrollments", enrollmentsList.length),
              ("classes", jsMapSize maps.1),
              ("subjects", jsMapSize maps.2)])]
    else
      .ok [("user", .fUser userDetails)]

/-- The top-level keys of the user-detail response's `data` object (empty for
a 404 response). -/
def userDetailDataKeys (db : DB) (userId : String) : List String :=
  match usersShow db userId with
  | .ok data => data.map (fun p => p.1)
  | .notFound _ => []

/-! ## Detail endpoints with numeric ids -/

/-- Numeric equality between the JS number parsed from `:id` and an integer
key column (the SQL comparison `col = $id`). -/
def ratIsNat (q : ℚ) (n : Nat) : Bool :=
  q.den == 1 && q.num == Int.ofNat n

inductive DetailResp (δ : Type) where
  | ok (data : δ)
  | notFound (error : String)
  | badRequest (error : String)
deriving DecidableEq

/-! ### GET /api/subjects/:id (src/routes/subjects.ts) -/

structure SubjectClassRow where
  cls : ClassRow
  teacher : Option User
deriving DecidableEq

structure SubjectDetailData where
  subject : Subject × Option Department
  classes : List SubjectClassRow
  totalClasses : Nat
deriving DecidableEq

/-- `Number(req.params.id)` then `Number.isFinite` guard (NaN and ±Infinity
fail it), then the subject lookup (404 when no row), then the classes
query. -/
def subjectsShow (db : DB) (idStr : String) : DetailResp SubjectDetailData :=
  match strToNumber idStr with
  | .nan => .badRequest "Invalid subject id"
  | .num q =>
    match ((leftJoinOpt db.subjects db.departments
          (fun s d => s.departmentId == d.id)).filter
        (fun r => ratIsNat q r.1.id)).head? with
    | none => .notFound "Subject not found"
    | some subjectRow =>
      let classesList :=
        sortByKeyDesc (fun r => r.cls.createdAt)
          (((leftJoinOpt db.classes db.users
                (fun c u => c.teacherId == u.id)).filter
              (fun r => ratIsNat q r.1.subjectId)).map
            (fun r => ⟨r.1, r.2⟩))
      .ok ⟨subjectRow, classesList, classesList.length⟩

/-! ### GET /api/departments/:id (src/routes/departments.ts) -/

structure SubjectWithCount where
  subject : Subject
  totalClasses : Nat
deriving DecidableEq

structure DeptClassRow where
  cls : ClassRow
  subject : Option Subject
  teacher : Option User
deriving DecidableEq

structure StudentSummary where
  id : String
  name : String
  email : String
  image : Option String
  role : Role
deriving DecidableEq

structure DeptTotals where
  subjects : Nat
  classes : Nat
  enrolledStudents : Nat
deriving DecidableEq

structure DepartmentDetailData where
  department : Department
  subjects : List SubjectWithCount
  classes : List DeptClassRow
  enrolledStudents : List StudentSummary
  totals : DeptTotals
deriving DecidableEq

/-- The where-clause `eq(subjects.departmentId, departmentId)` as a predicate
on a subject row. -/
def subjDeptFilter (q : ℚ) (s : Subject) : Bool :=
  ratIsNat q s.departmentId

/-- Subjects of the department with a per-subject class count:
`subjects leftJoin classes`, filtered to the department, grouped by
`subjects.id`, ordered by `desc(subjects.createdAt)`. -/
def deptSubjectsQuery (db : DB) (q : ℚ) : List SubjectWithCount :=
  sortByKeyDesc (fun r => r.subject.createdAt)
    ((groupPairs (fun r => r.1.id)
        ((leftJoinOpt db.subjects db.classes
            (fun s c => s.id == c.subjectId)).filter
          (fun r => subjDeptFilter q r.1))).filterMap
      (fun g =>
        match g.2 with
        | [] => none
        | r :: _ => some ⟨r.1, sqlCountSome (g.2.map (fun x => x.2))⟩))

/-- The where-clause `eq(subjects.departmentId, departmentId)` read on the
joined (class, subject) pair: a null subject (left join matched nothing)
compares false. -/
def deptClassFilter (q : ℚ) (cs : ClassRow × Option Subject) : Bool :=
  match cs.2 with
  | some s => ratIsNat q s.departmentId
  | none => false

/-- Classes under any subject of the department, joined to subject and
teacher; the where clause reads the joined subject's `departmentId` (null
when the left join matched nothing, which compares false). -/
def deptClassesQuery (db : DB) (q : ℚ) : List DeptClassRow :=
  sortByKeyDesc (fun r => r.cls.createdAt)
    (((leftJoinOpt
          (leftJoinOpt db.classes db.subjects (fun c s => c.subjectId == s.id))
          db.users (fun cs u => cs.1.teacherId == u.id)).filter
        (fun r => deptClassFilter q r.1)).map
      (fun r => ⟨r.1.1, r.1.2, r.2⟩))

/-- Distinct students enrolled in any class under the department:
`user leftJoin enrollments leftJoin classes leftJoin subjects`, filtered to
`role = student` and the department, grouped by the selected user columns
(legal because `user.id` is the primary key), ordered by
`desc(user.createdAt)`. -/
def deptStudentsQuery (db : DB) (q : ℚ) : List StudentSummary :=
  ((sortByKeyDesc (fun g => g.2)
      ((groupPairs
          (fun (r : ((User × Option Enrollment) × Option ClassRow) × Option Subject) =>
            (r.1.1.1.id, r.1.1.1.name, r.1.1.1.email, r.1.1.1.image, r.1.1.1.role))
          (((leftJoinOpt
                (leftJoinOpt
                  (leftJoinOpt db.users db.enrollments
                    (fun u e => u.id == e.studentId))
                  db.classes
                  (fun ue c =>
                    match ue.2 with
                    | some e => e.classId == c.id
                    | none => false))
                db.subjects
                (fun uec s =>
                  match uec.2 with
                  | some c => c.subjectId == s.id
                  | none => false)).filter
            (fun r =>
              (roleText r.1.1.1.role == "student") &&
                (match r.2 with
                 | some s => ratIsNat q s.departmentId
                 | none => false))))).filterMap
        (fun g =>
          match g.2 with
          | [] => none
          | r :: _ =>
            some (⟨r.1.1.1.id, r.1.1.1.name, r.1.1.1.email, r.1.1.1.image,
                    r.1.1.1.role⟩, r.1.1.1.createdAt))))).map (fun p => p.1)

def departmentsShow (db : DB) (idStr : String) :
    DetailResp DepartmentDetailData :=
  match strToNumber idStr with
  | .nan => .badRequest "Invalid department id"
  | .num q =>
    match (db.departments.filter (fun d => ratIsNat q d.id)).head? with
    | none => .notFound "Department not found"
    | some department =>
      let subjectsList := deptSubjectsQuery db q
      let classesList := deptClassesQuery db q
      let enrolledStudents := deptStudentsQuery db q
      .ok ⟨department, subjectsList, classesList, enrolledStudents,
           ⟨subjectsList.length, classesList.length, enrolledStudents.length⟩⟩

/-! ## Dedup-map lemmas (join-result flattener) -/

/-- The child pairs (primary key, record) present in a flat join result,
in row order: one per row whose child is non-null. -/
def presentChildren {ρ α : Type} (extract : ρ → Option (Nat × α))
    (rows : List ρ) : List (Nat × α) :=
  rows.filterMap extract

/-- The child pairs the dedup loops actually insert: the JS truthiness guard
`if (row.child?.id)` additionally drops a key of `0`. -/
def keptChildren {ρ α : Type} (extract : ρ → Option (Nat × α))
    (rows : List ρ) : List (Nat × α) :=
  (presentChildren extract rows).filter (fun p => natTruthy p.1)

/-- First-seen-wins deduplication by key of a pair list, skipping keys already
in `seen` (the spec's description of the flattener's output). -/
def distinctByKeyFirst {α : Type} (seen : List Nat) :
    List (Nat × α) → List (Nat × α)
  | [] => []
  | p :: rest =>
    if p.1 ∈ seen then distinctByKeyFirst seen rest
    else p :: distinctByKeyFirst (p.1 :: seen) rest

/-- One dedup-loop update for a single child relation: insert the extracted
child pair when the JS guard passes. -/
def childStep {ρ α : Type} (extract : ρ → Option (Nat × α))
    (m : List (Nat × α)) (r : ρ) : List (Nat × α) :=
  match extract r with
  | some p => if natTruthy p.1 then jsMapSet m p.1 p.2 else m
  | none => m

/-- The per-relation key-map built by a dedup loop over the whole result
set. -/
def childFold {ρ α : Type} (extract : ρ → Option (Nat × α)) (rows : List ρ) :
    List (Nat × α) :=
  rows.foldl (childStep extract) []

def teacherSubjectOf (r : TeacherClassRow) : Option (Nat × Subject) :=
  r.subject.map (fun s => (s.id, s))

def teacherDepartmentOf (r : TeacherClassRow) : Option (Nat × Department) :=
  r.department.map (fun d => (d.id, d))

def studentClassOf (r : StudentEnrollmentRow) : Option (Nat × ClassRow) :=
  r.cls.map (fun c => (c.id, c))

def studentSubjectOf (r : StudentEnrollmentRow) : Option (Nat × Subject) :=
  r.subject.map (fun s => (s.id, s))

/-! ## Example data for witnesses and counterexamples -/

def exTeacherUser : User :=
  ⟨"t1", "Tina Teach", "tina@school.io", true, none, .teacher, 10⟩

def exStudentUser : User :=
  ⟨"s1", "Sam Stu", "sam@school.io", true, none, .student, 5⟩

def exStudentOnlyDb : DB := ⟨[exStudentUser], [], [], [], []⟩

def exTeacherOnlyDb : DB := ⟨[exTeacherUser], [], [], [], []⟩

def exDepartment : Department := ⟨1, "CS", "Computer Science", "", 3⟩

def exSubject1 : Subject := ⟨1, 1, "Algorithms", "CS101", "", 4⟩

def exSubject2 : Subject := ⟨2, 1, "Databases", "CS102", "", 6⟩

def exClass1 : ClassRow := ⟨1, 1, "t1", "Algo A", "inv1", 30, "active", 7⟩

def exClass2 : ClassRow := ⟨2, 1, "t1", "Algo B", "inv2", 30, "active", 8⟩

def exClass3 : ClassRow := ⟨3, 2, "t1", "DB A", "inv3", 30, "active", 9⟩

def exEnrollment1 : Enrollment := ⟨1, "s1", 1, 11⟩

/-- A small school database: one department, two subjects, three classes,
one teacher, one enrolled student. -/
def exDb : DB :=
  ⟨[exTeacherUser, exStudentUser], [exDepartment], [exSubject1, exSubject2],
   [exClass1, exClass2, exClass3], [exEnrollment1]⟩

/-- A subject whose primary key is `0`: representable in the integer key
domain, and the JS truthiness guard treats it as falsy. -/
def exSubjectZero : Subject := ⟨0, 1, "Ghost", "CS000", "", 1⟩

def exRowZero : TeacherClassRow := ⟨exClass1, some exSubjectZero, none⟩

def exTeacherRows : List TeacherClassRow :=
  [⟨exClass1, some exSubject1, some exDepartment⟩,
   ⟨exClass2, some exSubject1, some exDepartment⟩]

def exStudentRows : List StudentEnrollmentRow :=
  [⟨exEnrollment1, some exClass1, some exSubject1, some exDepartment,
    some exTeacherUser⟩]

/-- The key of every inserted child pair determines its record (true of any
join result set drawn from a child table with unique primary keys). -/
@[reducible] def keyFunctional {ρ α : Type} (extract : ρ → Option (Nat × α))
    (rows : List ρ) : Prop :=
  ∀ p ∈ keptChildren extract rows, ∀ p2 ∈ keptChildren extract rows,
    p.1 = p2.1 → p.2 = p2.2

/-- Is the ok-branch data of a list response sorted descending by `key`? -/
def dataSortedBy {ρ : Type} (key : ρ → Nat) : ListResp ρ → Prop
  | .ok data _ => data.Pairwise (fun a b => key b ≤ key a)
  | .serverError _ => True

/-- The observable counts of a department-detail 200 response: lengths of the
`subjects`, `classes` and `enrolledStudents` arrays, and the `totals`
object. -/
def deptDetailInfo : DetailResp DepartmentDetailData →
    Option (Nat × Nat × Nat × DeptTotals)
  | .ok d => some (d.subjects.length, d.classes.length,
      d.enrolledStudents.length, d.totals)
  | .notFound _ => none
  | .badRequest _ => none

/-! ## Basic lemmas about the JS number model -/

theorem jsSub_num (a b : ℚ) : jsSub (.num a) (.num b) = .num (a - b) := by
  have ha : ((a.den : ℚ)) ≠ 0 := (Nat.cast_ne_zero (R := ℚ)).2 a.den_nz
  have hb : ((b.den : ℚ)) ≠ 0 := (Nat.cast_ne_zero (R := ℚ)).2 b.den_nz
  show JsNum.num
      (Rat.divInt (a.num * b.den - b.num * a.den) ((a.den : Int) * b.den)) =
    JsNum.num (a - b)
  congr 1
  rw [Rat.divInt_eq_div]
  push_cast
  have hna : (a.num : ℚ) = a * a.den := (div_eq_iff ha).1 (Rat.num_div_den a)
  have hnb : (b.num : ℚ) = b * b.den := (div_eq_iff hb).1 (Rat.num_div_den b)
  rw [hna, hnb, div_eq_iff (mul_ne_zero ha hb)]
  ring

theorem jsMul_num (a b : ℚ) : jsMul (.num a) (.num b) = .num (a * b) := by
  have ha : ((a.den : ℚ)) ≠ 0 := (Nat.cast_ne_zero (R := ℚ)).2 a.den_nz
  have hb : ((b.den : ℚ)) ≠ 0 := (Nat.cast_ne_zero (R := ℚ)).2 b.den_nz
  show JsNum.num (Rat.divInt (a.num * b.num) ((a.den : Int) * b.den)) =
    JsNum.num (a * b)
  congr 1
  rw [Rat.divInt_eq_div]
  push_cast
  have hna : (a.num : ℚ) = a * a.den := (div_eq_iff ha).1 (Rat.num_div_den a)
  have hnb : (b.num : ℚ) = b * b.den := (div_eq_iff hb).1 (Rat.num_div_den b)
  rw [hna, hnb, div_eq_iff (mul_ne_zero ha hb)]
  ring

theorem jsMax1_nat (p : ℕ) (hp : 1 ≤ p) : jsMax1 (.num (p : ℚ)) = .num (p : ℚ) := by
  unfold jsMax1
  have : ¬ ((p : ℚ) < 1) := by
    push_neg
    exact_mod_cast hp
  simp [this]

theorem jsToNonnegInt_nat (n : ℕ) : jsToNonnegInt (.num (n : ℚ)) = some n := by
  unfold jsToNonnegInt
  simp [Rat.den_natCast, Rat.num_natCast]

theorem ratIsNat_natCast (n m : ℕ) : ratIsNat ((n : ℕ) : ℚ) m = (m == n) := by
  rw [Bool.eq_iff_iff]
  simp [ratIsNat, Rat.den_natCast, Rat.num_natCast]
  omega

/-! ## Pagination arithmetic -/

theorem paginate_length_le {α : Type} (off lim : Nat) (l : List α) :
    (paginate off lim l).length ≤ lim := by
  simp [paginate]

theorem paginate_length_full {α : Type} (off lim : Nat) (l : List α)
    (h : off + lim ≤ l.length) : (paginate off lim l).length = lim := by
  simp [paginate]
  omega

/-- `Math.ceil(t / l)` on naturals is the rounded-up natural division. -/
theorem jsCeilDiv_natCast (t lim : ℕ) (hl : 1 ≤ lim) :
    jsCeilDiv t ((lim : ℕ) : ℚ) = (((t + lim - 1) / lim : ℕ) : ℤ) := by
  have hl0 : (0 : ℚ) < (lim : ℚ) := by exact_mod_cast hl
  have hd : jsCeilDiv t ((lim : ℕ) : ℚ) = ⌈(t : ℚ) / (lim : ℚ)⌉ := by
    unfold jsCeilDiv
    rw [Rat.den_natCast, Rat.num_natCast, Rat.divInt_eq_div]
    push_cast
    simp
  rw [hd, Int.ceil_eq_iff]
  have hdm := Nat.div_add_mod (t + lim - 1) lim
  have hmod : (t + lim - 1) % lim < lim := Nat.mod_lt _ (by omega)
  set z := (t + lim - 1) / lim with hz
  have hub : lim * z ≤ t + lim - 1 := by omega
  constructor
  · rw [lt_div_iff₀ hl0]
    have hwlt : z * lim < t + lim := by
      calc z * lim = lim * z := Nat.mul_comm _ _
        _ ≤ t + lim - 1 := hub
        _ < t + lim := by omega
    have hq : ((z * lim : ℕ) : ℚ) < ((t + lim : ℕ) : ℚ) := by exact_mod_cast hwlt
    push_cast at hq
    push_cast
    nlinarith [hq]
  · rw [div_le_iff₀ hl0]
    have hle : t ≤ z * lim := by
      rcases Nat.eq_zero_or_pos t with ht | ht
      · simp [ht]
      · have : lim * z + lim ≥ t + lim := by omega
        calc t ≤ lim * z := by omega
          _ = z * lim := Nat.mul_comm _ _
    have hq : ((t : ℕ) : ℚ) ≤ ((z * lim : ℕ) : ℚ) := by exact_mod_cast hle
    push_cast at hq
    push_cast
    linarith

/-! ## Sorting lemmas -/

theorem length_insertByKeyDesc {α : Type} (key : α → Nat) (a : α) (l : List α) :
    (insertByKeyDesc key a l).length = l.length + 1 := by
  induction l with
  | nil => rfl
  | cons b bs ih =>
    unfold insertByKeyDesc
    by_cases h : key b ≤ key a <;> simp [h, ih]

theorem length_sortByKeyDesc {α : Type} (key : α → Nat) (l : List α) :
    (sortByKeyDesc key l).length = l.length := by
  induction l with
  | nil => rfl
  | cons a as ih =>
    unfold sortByKeyDesc
    rw [length_insertByKeyDesc, ih]
    rfl

theorem mem_insertByKeyDesc {α : Type} (key : α → Nat) (a x : α) (l : List α) :
    x ∈ insertByKeyDesc key a l ↔ x = a ∨ x ∈ l := by
  induction l with
  | nil => simp [insertByKeyDesc]
  | cons b bs ih =>
    unfold insertByKeyDesc
    by_cases h : key b ≤ key a
    · rw [if_pos h]
      simp
    · rw [if_neg h]
      simp only [List.mem_cons, ih]
      tauto

theorem sorted_insertByKeyDesc {α : Type} (key : α → Nat) (a : α) (l : List α)
    (hl : l.Pairwise (fun x y => key y ≤ key x)) :
    (insertByKeyDesc key a l).Pairwise (fun x y => key y ≤ key x) := by
  induction l with
  | nil => simp [insertByKeyDesc]
  | cons b bs ih =>
    unfold insertByKeyDesc
    rcases List.pairwise_cons.1 hl with ⟨hb, hbs⟩
    by_cases h : key b ≤ key a
    · rw [if_pos h]
      refine List.pairwise_cons.2 ⟨?_, hl⟩
      intro y hy
      rcases List.mem_cons.1 hy with rfl | hy2
      · exact h
      · exact le_trans (hb y hy2) h
    · rw [if_neg h]
      refine List.pairwise_cons.2 ⟨?_, ih hbs⟩
      intro y hy
      rcases (mem_insertByKeyDesc key a y bs).1 hy with rfl | hy2
      · omega
      · exact hb y hy2

theorem sorted_sortByKeyDesc {α : Type} (key : α → Nat) (l : List α) :
    (sortByKeyDesc key l).Pairwise (fun x y => key y ≤ key x) := by
  induction l with
  | nil => exact List.Pairwise.nil
  | cons a as ih => exact sorted_insertByKeyDesc key a _ ih

/-! ## Left-join lemmas -/

theorem joinBlock_ne_nil {α β : Type} (a : α) (rs : List β) (cond : α → β → Bool) :
    joinBlock a rs cond ≠ [] := by
  unfold joinBlock
  cases h : rs.filter (fun b => cond a b) with
  | nil => simp
  | cons b ms => simp

theorem joinBlock_fst {α β : Type} (a : α) (rs : List β) (cond : α → β → Bool) :
    ∀ r ∈ joinBlock a rs cond, r.1 = a := by
  intro r hr
  unfold joinBlock at hr
  cases h : rs.filter (fun b => cond a b) with
  | nil =>
    rw [h] at hr
    simp at hr
    simp [hr]
  | cons b ms =>
    rw [h] at hr
    rcases List.mem_map.1 hr with ⟨x, _, hx⟩
    simp [← hx]

theorem joinBlock_length_one {α β : Type} (a : α) (rs : List β)
    (cond : α → β → Bool) (h : (rs.filter (fun b => cond a b)).length ≤ 1) :
    (joinBlock a rs cond).length = 1 := by
  unfold joinBlock
  cases hf : rs.filter (fun b => cond a b) with
  | nil => rfl
  | cons b ms =>
    rw [hf] at h
    simp at h ⊢
    exact h

theorem leftJoinOpt_cons {α β : Type} (a : α) (ls : List α) (rs : List β)
    (cond : α → β → Bool) :
    leftJoinOpt (a :: ls) rs cond = joinBlock a rs cond ++ leftJoinOpt ls rs cond := by
  simp [leftJoinOpt]

theorem mem_fst_leftJoinOpt {α β : Type} (ls : List α) (rs : List β)
    (cond : α → β → Bool) : ∀ r ∈ leftJoinOpt ls rs cond, r.1 ∈ ls := by
  intro r hr
  rcases List.mem_flatMap.1 hr with ⟨a, ha, hblock⟩
  rw [joinBlock_fst a rs cond r hblock]
  exact ha

theorem length_leftJoinOpt_unique {α β : Type} (ls : List α) (rs : List β)
    (cond : α → β → Bool)
    (h : ∀ a ∈ ls, (rs.filter (fun b => cond a b)).length ≤ 1) :
    (leftJoinOpt ls rs cond).length = ls.length := by
  induction ls with
  | nil => rfl
  | cons a as ih =>
    rw [leftJoinOpt_cons, List.length_append,
      joinBlock_length_one a rs cond (h a (List.mem_cons_self a as)),
      ih (fun x hx => h x (List.mem_cons_of_mem a hx))]
    simp [Nat.add_comm]

theorem filter_joinBlock_fst {α β : Type} (a : α) (rs : List β)
    (cond : α → β → Bool) (p : α → Bool) :
    (joinBlock a rs cond).filter (fun r => p r.1) =
      if p a then joinBlock a rs cond else [] := by
  by_cases hp : p a
  · rw [if_pos hp]
    apply List.filter_eq_self.2
    intro r hr
    rw [joinBlock_fst a rs cond r hr]
    exact hp
  · rw [if_neg hp]
    apply List.filter_eq_nil_iff.2
    intro r hr
    rw [joinBlock_fst a rs cond r hr]
    simp [hp]

theorem filter_fst_leftJoinOpt {α β : Type} (ls : List α) (rs : List β)
    (cond : α → β → Bool) (p : α → Bool) :
    (leftJoinOpt ls rs cond).filter (fun r => p r.1) =
      leftJoinOpt (ls.filter p) rs cond := by
  induction ls with
  | nil => rfl
  | cons a as ih =>
    rw [leftJoinOpt_cons, List.filter_append, filter_joinBlock_fst, ih]
    by_cases hp : p a
    · rw [if_pos hp, List.filter_cons_of_pos hp, leftJoinOpt_cons]
    · rw [if_neg hp, List.filter_cons_of_neg hp]
      rfl

theorem filter_length_le_one_of_nodup_map {β κ : Type} [DecidableEq κ]
    (f : β → κ) (rs : List β) (hnd : (rs.map f).Nodup) (p : β → Bool) (k : κ)
    (hp : ∀ b, p b = true → f b = k) : (rs.filter p).length ≤ 1 := by
  induction rs with
  | nil => simp
  | cons b bs ih =>
    rw [List.map_cons, List.nodup_cons] at hnd
    by_cases hb : p b
    · rw [List.filter_cons_of_pos hb]
      have hnil : bs.filter p = [] := by
        apply List.filter_eq_nil_iff.2
        intro x hx hpx
        apply hnd.1
        rw [hp b hb, ← hp x hpx]
        exact List.mem_map_of_mem f hx
      simp [hnil]
    · rw [List.filter_cons_of_neg hb]
      exact ih hnd.2

theorem filter_snd_joinBlock_length {α β : Type} (a : α) (rs : List β)
    (cond : α → β → Bool) (q : β → Bool)
    (h : (rs.filter (fun b => cond a b)).length ≤ 1) :
    ((joinBlock a rs cond).filter
        (fun r => match r.2 with | some b => q b | none => false)).length =
      if rs.any (fun b => cond a b && q b) then 1 else 0 := by
  have hany : rs.any (fun b => cond a b && q b) =
      (rs.filter (fun b => cond a b)).any q := by
    induction rs with
    | nil => rfl
    | cons b bs ih =>
      by_cases hc : cond a b
      · simp [List.filter_cons_of_pos hc, hc, ih]
      · simp [List.filter_cons_of_neg hc, hc, ih]
  rw [hany]
  unfold joinBlock
  cases hf : rs.filter (fun b => cond a b) with
  | nil => simp
  | cons b ms =>
    have hms : ms = [] := by
      rw [hf] at h
      simpa using h
    subst hms
    by_cases hq : q b
    · simp [hq]
    · simp [hq]

theorem filter_snd_leftJoinOpt_length {α β : Type} (ls : List α) (rs : List β)
    (cond : α → β → Bool) (q : β → Bool)
    (h : ∀ a ∈ ls, (rs.filter (fun b => cond a b)).length ≤ 1) :
    ((leftJoinOpt ls rs cond).filter
        (fun r => match r.2 with | some b => q b | none => false)).length =
      (ls.filter (fun a => rs.any (fun b => cond a b && q b))).length := by
  induction ls with
  | nil => rfl
  | cons a as ih =>
    rw [leftJoinOpt_cons, List.filter_append, List.length_append,
      filter_snd_joinBlock_length a rs cond q (h a (List.mem_cons_self a as)),
      ih (fun x hx => h x (List.mem_cons_of_mem a hx))]
    by_cases ha : rs.any (fun b => cond a b && q b)
    · rw [if_pos ha]
      simp [List.filter_cons, ha, Nat.add_comm]
    · rw [if_neg ha]
      simp [List.filter_cons, ha]

/-! ## Group-by lemmas -/

theorem addToGroups_cons_ne {κ ρ : Type} [DecidableEq κ] (k0 k : κ)
    (b : List ρ) (gs : List (κ × List ρ)) (r : ρ) (h : k0 ≠ k) :
    addToGroups ((k0, b) :: gs) k r = (k0, b) :: addToGroups gs k r := by
  simp [addToGroups, h]

theorem foldl_addToGroups_cons {κ ρ : Type} [DecidableEq κ] (key : ρ → κ)
    (l : List ρ) (k0 : κ) (b : List ρ) (gs : List (κ × List ρ))
    (h : ∀ r ∈ l, key r ≠ k0) :
    l.foldl (fun gs r => addToGroups gs (key r) r) ((k0, b) :: gs) =
      (k0, b) :: l.foldl (fun gs r => addToGroups gs (key r) r) gs := by
  induction l generalizing gs with
  | nil => rfl
  | cons r rest ih =>
    have hne : k0 ≠ key r := fun he => h r (List.mem_cons_self r rest) he.symm
    simp only [List.foldl_cons, addToGroups_cons_ne _ _ _ _ _ hne]
    exact ih _ (fun x hx => h x (List.mem_cons_of_mem r hx))

theorem foldl_addToGroups_const {κ ρ : Type} [DecidableEq κ] (key : ρ → κ)
    (k0 : κ) (l : List ρ) (acc : List ρ) (hk : ∀ r ∈ l, key r = k0) :
    l.foldl (fun gs r => addToGroups gs (key r) r) [(k0, acc)] =
      [(k0, acc ++ l)] := by
  induction l generalizing acc with
  | nil => simp
  | cons r rest ih =>
    have hr : key r = k0 := hk r (List.mem_cons_self r rest)
    simp only [List.foldl_cons]
    have hstep : addToGroups [(k0, acc)] (key r) r = [(k0, acc ++ [r])] := by
      simp [addToGroups, hr]
    rw [hstep, ih (acc ++ [r]) (fun x hx => hk x (List.mem_cons_of_mem r hx))]
    simp

theorem groupPairs_block_cons {κ ρ : Type} [DecidableEq κ] (key : ρ → κ)
    (k0 : κ) (block rest : List ρ) (hb : block ≠ [])
    (hbk : ∀ r ∈ block, key r = k0) (hrk : ∀ r ∈ rest, key r ≠ k0) :
    groupPairs key (block ++ rest) = (k0, block) :: groupPairs key rest := by
  unfold groupPairs
  rw [List.foldl_append]
  cases block with
  | nil => exact absurd rfl hb
  | cons r0 bs =>
    have h0 : key r0 = k0 := hbk r0 (List.mem_cons_self r0 bs)
    simp only [List.foldl_cons]
    have hfirst : addToGroups [] (key r0) r0 = [(k0, [r0])] := by
      simp [addToGroups, h0]
    rw [hfirst,
      foldl_addToGroups_const key k0 bs [r0]
        (fun x hx => hbk x (List.mem_cons_of_mem r0 hx)),
      foldl_addToGroups_cons key rest k0 ([r0] ++ bs) [] hrk]
    rfl

theorem length_groupPairs_leftJoin {α β κ : Type} [DecidableEq κ]
    (pk : α → κ) (ls : List α) (rs : List β) (cond : α → β → Bool)
    (hnd : (ls.map pk).Nodup) :
    (groupPairs (fun r => pk r.1) (leftJoinOpt ls rs cond)).length =
      ls.length := by
  induction ls with
  | nil => rfl
  | cons a as ih =>
    rw [List.map_cons, List.nodup_cons] at hnd
    rw [leftJoinOpt_cons,
      groupPairs_block_cons (fun r => pk r.1) (pk a) _ _
        (joinBlock_ne_nil a rs cond)
        (fun r hr => by
          show pk r.1 = pk a
          rw [joinBlock_fst a rs cond r hr])
        (fun r hr he => hnd.1 (by
          show pk a ∈ List.map pk as
          rw [← he]
          exact List.mem_map_of_mem pk (mem_fst_leftJoinOpt as rs cond r hr)))]
    simp [ih hnd.2]

theorem addToGroups_ne_nil {κ ρ : Type} [DecidableEq κ]
    (gs : List (κ × List ρ)) (k : κ) (r : ρ)
    (hgs : ∀ g ∈ gs, g.2 ≠ []) : ∀ g ∈ addToGroups gs k r, g.2 ≠ [] := by
  induction gs with
  | nil =>
    intro g hg
    simp [addToGroups] at hg
    simp [hg]
  | cons g0 rest ih =>
    obtain ⟨k0, rs0⟩ := g0
    intro g hg
    unfold addToGroups at hg
    by_cases he : k0 = k
    · rw [if_pos he] at hg
      rcases List.mem_cons.1 hg with rfl | hmem
      · simp
      · exact hgs g (List.mem_cons_of_mem _ hmem)
    · rw [if_neg he] at hg
      rcases List.mem_cons.1 hg with rfl | hmem
      · exact hgs (k0, rs0) (List.mem_cons_self _ _)
      · exact ih (fun x hx => hgs x (List.mem_cons_of_mem _ hx)) g hmem

theorem mem_groupPairs_ne_nil {κ ρ : Type} [DecidableEq κ] (key : ρ → κ)
    (rows : List ρ) : ∀ g ∈ groupPairs key rows, g.2 ≠ [] := by
  have haux : ∀ (l : List ρ) (gs : List (κ × List ρ)),
      (∀ g ∈ gs, g.2 ≠ []) →
      ∀ g ∈ l.foldl (fun gs r => addToGroups gs (key r) r) gs, g.2 ≠ [] := by
    intro l
    induction l with
    | nil =>
      intro gs hgs
      simpa using hgs
    | cons r rest ih =>
      intro gs hgs
      simp only [List.foldl_cons]
      exact ih _ (addToGroups_ne_nil gs (key r) r hgs)
  intro g hg
  exact haux rows [] (by simp) g hg

theorem length_filterMap_of_isSome {γ δ : Type} (f : γ → Option δ)
    (l : List γ) (h : ∀ x ∈ l, (f x).isSome) :
    (l.filterMap f).length = l.length := by
  induction l with
  | nil => rfl
  | cons x xs ih =>
    have hx := h x (List.mem_cons_self x xs)
    rw [List.filterMap_cons]
    cases hfx : f x with
    | none => rw [hfx] at hx; simp at hx
    | some y =>
      simp only [List.length_cons]
      rw [ih (fun z hz => h z (List.mem_cons_of_mem x hz))]

theorem distinctByKeyFirst_cons {α : Type} (seen : List Nat) (p : Nat × α)
    (rest : List (Nat × α)) :
    distinctByKeyFirst seen (p :: rest) =
      if p.1 ∈ seen then distinctByKeyFirst seen rest
      else p :: distinctByKeyFirst (p.1 :: seen) rest := rfl

theorem distinctByKeyFirst_congr {α : Type} (seen seen2 : List Nat)
    (l : List (Nat × α)) (h : ∀ x, x ∈ seen ↔ x ∈ seen2) :
    distinctByKeyFirst seen l = distinctByKeyFirst seen2 l := by
  induction l generalizing seen seen2 with
  | nil => rfl
  | cons p rest ih =>
    unfold distinctByKeyFirst
    by_cases hp : p.1 ∈ seen
    · rw [if_pos hp, if_pos ((h p.1).1 hp)]
      exact ih seen seen2 h
    · rw [if_neg hp, if_neg (fun hx => hp ((h p.1).2 hx))]
      rw [ih (p.1 :: seen) (p.1 :: seen2) (by intro x; simp [h x])]

theorem distinctByKeyFirst_keys {α : Type} (seen : List Nat)
    (l : List (Nat × α)) :
    ((distinctByKeyFirst seen l).map Prod.fst).Nodup ∧
      ∀ k ∈ (distinctByKeyFirst seen l).map Prod.fst, k ∉ seen := by
  induction l generalizing seen with
  | nil => simp [distinctByKeyFirst]
  | cons p rest ih =>
    unfold distinctByKeyFirst
    by_cases hp : p.1 ∈ seen
    · rw [if_pos hp]
      exact ih seen
    · rw [if_neg hp]
      rcases ih (p.1 :: seen) with ⟨ihnd, ihseen⟩
      constructor
      · rw [List.map_cons, List.nodup_cons]
        exact ⟨fun hk => (ihseen p.1 hk) (List.mem_cons_self _ _), ihnd⟩
      · intro k hk
        rcases List.mem_cons.1 hk with rfl | hk2
        · exact hp
        · exact fun hks => (ihseen k hk2) (List.mem_cons_of_mem _ hks)

theorem jsMapSet_mem_eq {α : Type} (m : List (Nat × α)) (k : Nat) (v : α)
    (hmem : k ∈ m.map Prod.fst) (h : ∀ q ∈ m, q.1 = k → q.2 = v) :
    jsMapSet m k v = m := by
  have hany : m.any (fun p => p.1 == k) = true := by
    rcases List.mem_map.1 hmem with ⟨q, hq, hqk⟩
    exact List.any_eq_true.2 ⟨q, hq, by simp [hqk]⟩
  unfold jsMapSet
  rw [if_pos hany]
  have hid : ∀ p ∈ m, (if p.1 == k then (p.1, v) else p) = p := by
    intro p hp
    obtain ⟨p1, p2⟩ := p
    by_cases hpk : p1 = k
    · have hv : p2 = v := h (p1, p2) hp hpk
      simp [hpk, hv]
    · simp [hpk]
  rw [List.map_congr_left hid]
  simp

theorem jsMapSet_not_mem {α : Type} (m : List (Nat × α)) (k : Nat) (v : α)
    (hmem : k ∉ m.map Prod.fst) : jsMapSet m k v = m ++ [(k, v)] := by
  have hany : m.any (fun p => p.1 == k) = false := by
    rw [List.any_eq_false]
    intro p hp
    simp only [beq_iff_eq]
    exact fun hpk => hmem (hpk ▸ List.mem_map_of_mem Prod.fst hp)
  unfold jsMapSet
  rw [hany]
  simp

theorem foldl_jsMapSet_eq {α : Type} (l m : List (Nat × α))
    (hfun : ∀ p ∈ m ++ l, ∀ p2 ∈ m ++ l, p.1 = p2.1 → p.2 = p2.2)
    (hnd : (m.map Prod.fst).Nodup) :
    l.foldl (fun acc p => jsMapSet acc p.1 p.2) m =
      m ++ distinctByKeyFirst (m.map Prod.fst) l := by
  induction l generalizing m with
  | nil => simp [distinctByKeyFirst]
  | cons p rest ih =>
    simp only [List.foldl_cons]
    by_cases hp : p.1 ∈ m.map Prod.fst
    · have heq : jsMapSet m p.1 p.2 = m := by
        apply jsMapSet_mem_eq m p.1 p.2 hp
        intro q hq hqk
        exact hfun q (List.mem_append_left _ hq) p
          (List.mem_append_right _ (List.mem_cons_self _ _)) hqk
      rw [heq, ih m (by
        intro x hx y hy hxy
        apply hfun x ?_ y ?_ hxy
        · rcases List.mem_append.1 hx with hx2 | hx2
          · exact List.mem_append_left _ hx2
          · exact List.mem_append_right _ (List.mem_cons_of_mem _ hx2)
        · rcases List.mem_append.1 hy with hy2 | hy2
          · exact List.mem_append_left _ hy2
          · exact List.mem_append_right _ (List.mem_cons_of_mem _ hy2)) hnd]
      rw [distinctByKeyFirst_cons, if_pos hp]
    · have heq : jsMapSet m p.1 p.2 = m ++ [p] := jsMapSet_not_mem m p.1 p.2 hp
      have hfun2 : ∀ x ∈ (m ++ [p]) ++ rest, ∀ y ∈ (m ++ [p]) ++ rest,
          x.1 = y.1 → x.2 = y.2 := by
        rw [List.append_assoc]
        intro x hx y hy
        exact hfun x (by simpa using hx) y (by simpa using hy)
      have hnd2 : ((m ++ [p]).map Prod.fst).Nodup := by
        rw [List.map_append]
        simp only [List.map_cons, List.map_nil]
        rw [List.nodup_append]
        refine ⟨hnd, List.nodup_singleton _, ?_⟩
        intro x hx
        simp only [List.mem_singleton]
        exact fun he => hp (he ▸ hx)
      rw [heq, ih (m ++ [p]) hfun2 hnd2, distinctByKeyFirst_cons, if_neg hp,
        List.append_assoc]
      congr 1
      rw [List.singleton_append]
      congr 1
      apply distinctByKeyFirst_congr
      intro x
      rw [List.map_append]
      simp [Or.comm]

theorem foldl_pairStep {σ τ ρ : Type} (f : σ × τ → ρ → σ × τ)
    (f1 : σ → ρ → σ) (f2 : τ → ρ → τ)
    (hf : ∀ s t r, f (s, t) r = (f1 s r, f2 t r)) (l : List ρ) (s : σ) (t : τ) :
    l.foldl f (s, t) = (l.foldl f1 s, l.foldl f2 t) := by
  induction l generalizing s t with
  | nil => rfl
  | cons r rest ih =>
    simp only [List.foldl_cons, hf s t r]
    exact ih (f1 s r) (f2 t r)

theorem teacherMapsStep_eq (ms : List (Nat × Subject) × List (Nat × Department))
    (r : TeacherClassRow) :
    teacherMapsStep ms r =
      (childStep teacherSubjectOf ms.1 r, childStep teacherDepartmentOf ms.2 r) := by
  obtain ⟨m1, m2⟩ := ms
  unfold teacherMapsStep childStep teacherSubjectOf teacherDepartmentOf
  cases hs : r.subject with
  | none =>
    cases hd : r.department with
    | none => rfl
    | some d => by_cases htd : natTruthy d.id <;> simp [htd]
  | some sub =>
    cases hd : r.department with
    | none => by_cases hts : natTruthy sub.id <;> simp [hts]
    | some d =>
      by_cases hts : natTruthy sub.id <;> by_cases htd : natTruthy d.id <;>
        simp [hts, htd]

theorem teacherMaps_eq (rows : List TeacherClassRow) :
    teacherMaps rows =
      (childFold teacherSubjectOf rows, childFold teacherDepartmentOf rows) := by
  unfold teacherMaps childFold
  exact foldl_pairStep teacherMapsStep _ _
    (fun s t r => teacherMapsStep_eq (s, t) r) rows [] []

theorem studentMapsStep_eq (ms : List (Nat × ClassRow) × List (Nat × Subject))
    (r : StudentEnrollmentRow) :
    studentMapsStep ms r =
      (childStep studentClassOf ms.1 r, childStep studentSubjectOf ms.2 r) := by
  obtain ⟨m1, m2⟩ := ms
  unfold studentMapsStep childStep studentClassOf studentSubjectOf
  cases hc : r.cls with
  | none =>
    cases hs : r.subject with
    | none => rfl
    | some sub => by_cases hts : natTruthy sub.id <;> simp [hts]
  | some c =>
    cases hs : r.subject with
    | none => by_cases htc : natTruthy c.id <;> simp [htc]
    | some sub =>
      by_cases htc : natTruthy c.id <;> by_cases hts : natTruthy sub.id <;>
        simp [htc, hts]

theorem studentMaps_eq (rows : List StudentEnrollmentRow) :
    studentMaps rows =
      (childFold studentClassOf rows, childFold studentSubjectOf rows) := by
  unfold studentMaps childFold
  exact foldl_pairStep studentMapsStep _ _
    (fun s t r => studentMapsStep_eq (s, t) r) rows [] []

theorem childFold_eq_foldl_kept {ρ α : Type} (extract : ρ → Option (Nat × α))
    (rows : List ρ) (m : List (Nat × α)) :
    rows.foldl (childStep extract) m =
      (keptChildren extract rows).foldl (fun acc p => jsMapSet acc p.1 p.2) m := by
  induction rows generalizing m with
  | nil => rfl
  | cons r rest ih =>
    simp only [List.foldl_cons]
    unfold keptChildren presentChildren at ih ⊢
    rw [List.filterMap_cons]
    cases he : extract r with
    | none =>
      show List.foldl (childStep extract) (childStep extract m r) rest = _
      unfold childStep
      rw [he]
      dsimp only
      exact ih m
    | some p =>
      show List.foldl (childStep extract) (childStep extract m r) rest = _
      unfold childStep
      rw [he]
      dsimp only
      by_cases ht : natTruthy p.1
      · have hf : List.filter (fun q => natTruthy q.1)
            (p :: List.filterMap extract rest) =
            p :: List.filter (fun q => natTruthy q.1)
              (List.filterMap extract rest) := by
          simp [List.filter_cons, ht]
        rw [if_pos ht, hf]
        simp only [List.foldl_cons]
        exact ih (jsMapSet m p.1 p.2)
      · have hf : List.filter (fun q => natTruthy q.1)
            (p :: List.filterMap extract rest) =
            List.filter (fun q => natTruthy q.1)
              (List.filterMap extract rest) := by
          simp [List.filter_cons, ht]
        rw [if_neg ht, hf]
        exact ih m

/-- The key-map a dedup loop builds is exactly the first-seen-wins
deduplication of the guard-passing child pairs, provided the key determines
the record (true of any join result drawn from a table with unique primary
keys). -/
theorem childFold_eq_distinct {ρ α : Type} (extract : ρ → Option (Nat × α))
    (rows : List ρ)
    (hfun : ∀ p ∈ keptChildren extract rows, ∀ p2 ∈ keptChildren extract rows,
      p.1 = p2.1 → p.2 = p2.2) :
    childFold extract rows = distinctByKeyFirst [] (keptChildren extract rows) := by
  unfold childFold
  rw [childFold_eq_foldl_kept extract rows []]
  have h := foldl_jsMapSet_eq (keptChildren extract rows) []
    (by simpa using hfun) (by simp)
  simpa using h

/-! ## Per-endpoint relation-size lemmas -/

theorem usersFullData_length (db : DB) (search role : Option String) :
    (usersFullData db search role).length = usersTotal db search role := by
  simp [usersFullData, usersTotal, sqlCount, length_sortByKeyDesc]

theorem subjectsFullData_length (db : DB) (search department : Option String) :
    (subjectsFullData db search department).length =
      subjectsTotal db search department := by
  simp [subjectsFullData, subjectsTotal, sqlCount, length_sortByKeyDesc]

theorem classesFullData_length (db : DB) (search subject teacher : Option String) :
    (classesFullData db search subject teacher).length =
      classesTotal db search subject teacher := by
  simp [classesFullData, classesTotal, classesSelect, sqlCount,
    length_sortByKeyDesc]

theorem departmentsSelect_length (gs : List (Nat × List (Department × Option Subject)))
    (h : ∀ g ∈ gs, g.2 ≠ []) : (departmentsSelect gs).length = gs.length := by
  unfold departmentsSelect
  apply length_filterMap_of_isSome
  intro g hg
  cases hgs : g.2 with
  | nil => exact absurd hgs (h g hg)
  | cons r rs => simp [hgs]

/-- The departments data query returns one row per department passing the
filter: grouping by the primary key undoes the left-join fan-out, so its row
count agrees with the count query that runs on the bare table. -/
theorem departmentsFullData_length (db : DB) (search : Option String)
    (hnd : (db.departments.map (fun d => d.id)).Nodup) :
    (departmentsFullData db search).length = departmentsTotal db search := by
  unfold departmentsFullData departmentsTotal departmentsGrouped
  rw [length_sortByKeyDesc,
    departmentsSelect_length _ (mem_groupPairs_ne_nil _ _)]
  cases hw : departmentsWhere search with
  | none =>
    show (groupPairs (fun (r : Department × Option Subject) => r.1.id)
        (leftJoinOpt db.departments db.subjects
          (fun d s => d.id == s.departmentId))).length =
      db.departments.length
    exact length_groupPairs_leftJoin (fun d => d.id) db.departments
      db.subjects _ hnd
  | some p =>
    show (groupPairs (fun (r : Department × Option Subject) => r.1.id)
        ((leftJoinOpt db.departments db.subjects
            (fun d s => d.id == s.departmentId)).filter
          (fun r => p r.1))).length =
      (db.departments.filter p).length
    rw [filter_fst_leftJoinOpt]
    exact length_groupPairs_leftJoin (fun d => d.id) (db.departments.filter p)
      db.subjects _
      (List.Nodup.sublist (List.Sublist.map _ (List.filter_sublist _)) hnd)

/-! ## The ok-branch normal form for natural page and limit -/

theorem effOffset_nat (p l : ℕ) (hp : 1 ≤ p) :
    jsToNonnegInt (jsMul (jsSub (.num ((p : ℕ) : ℚ)) (.num 1)) (.num ((l : ℕ) : ℚ))) =
      some ((p - 1) * l) := by
  rw [jsSub_num, jsMul_num]
  have hoff : (((p - 1) * l : ℕ) : ℚ) = ((p : ℚ) - 1) * (l : ℚ) := by
    push_cast [Nat.cast_sub hp]
    ring
  rw [← hoff, jsToNonnegInt_nat]

theorem usersIndexCore_nat (db : DB) (search role : Option String)
    (p l : ℕ) (hp : 1 ≤ p) (hl : 1 ≤ l) :
    usersIndexCore db search role (.num ((p : ℕ) : ℚ)) (.num ((l : ℕ) : ℚ)) =
      .ok (paginate ((p - 1) * l) l (usersFullData db search role))
        ⟨((p : ℕ) : ℚ), ((l : ℕ) : ℚ), usersTotal db search role,
          (((usersTotal db search role + l - 1) / l : ℕ) : ℤ)⟩ := by
  unfold usersIndexCore
  dsimp only
  rw [jsMax1_nat p hp, jsMax1_nat l hl, effOffset_nat p l hp, jsToNonnegInt_nat]
  dsimp only
  rw [jsCeilDiv_natCast _ l hl]

theorem subjectsIndexCore_nat (db : DB) (search department : Option String)
    (p l : ℕ) (hp : 1 ≤ p) (hl : 1 ≤ l) :
    subjectsIndexCore db search department (.num ((p : ℕ) : ℚ)) (.num ((l : ℕ) : ℚ)) =
      .ok (paginate ((p - 1) * l) l (subjectsFullData db search department))
        ⟨((p : ℕ) : ℚ), ((l : ℕ) : ℚ), subjectsTotal db search department,
          (((subjectsTotal db search department + l - 1) / l : ℕ) : ℤ)⟩ := by
  unfold subjectsIndexCore
  dsimp only
  rw [jsMax1_nat p hp, jsMax1_nat l hl, effOffset_nat p l hp, jsToNonnegInt_nat]
  dsimp only
  rw [jsCeilDiv_natCast _ l hl]

theorem departmentsIndexCore_nat (db : DB) (search : Option String)
    (p l : ℕ) (hp : 1 ≤ p) (hl : 1 ≤ l) :
    departmentsIndexCore db search (.num ((p : ℕ) : ℚ)) (.num ((l : ℕ) : ℚ)) =
      .ok (paginate ((p - 1) * l) l (departmentsFullData db search))
        ⟨((p : ℕ) : ℚ), ((l : ℕ) : ℚ), departmentsTotal db search,
          (((departmentsTotal db search + l - 1) / l : ℕ) : ℤ)⟩ := by
  unfold departmentsIndexCore
  dsimp only
  rw [jsMax1_nat p hp, jsMax1_nat l hl, effOffset_nat p l hp, jsToNonnegInt_nat]
  dsimp only
  rw [jsCeilDiv_natCast _ l hl]

theorem classesIndexCore_nat (db : DB) (search subject teacher : Option String)
    (p l : ℕ) (hp : 1 ≤ p) (hl : 1 ≤ l) :
    classesIndexCore db search subject teacher
        (.num ((p : ℕ) : ℚ)) (.num ((l : ℕ) : ℚ)) =
      .ok (paginate ((p - 1) * l) l (classesFullData db search subject teacher))
        ⟨((p : ℕ) : ℚ), ((l : ℕ) : ℚ), classesTotal db search subject teacher,
          (((classesTotal db search subject teacher + l - 1) / l : ℕ) : ℤ)⟩ := by
  unfold classesIndexCore
  dsimp only
  rw [jsMax1_nat p hp, jsMax1_nat l hl, effOffset_nat p l hp, jsToNonnegInt_nat]
  dsimp only
  rw [jsCeilDiv_natCast _ l hl]

/-! ## Department-detail count lemmas -/

theorem filter_snd_leftJoinOpt_length_pred {α β : Type} (ls : List α)
    (rs : List β) (cond : α → β → Bool) (fpred : α × Option β → Bool)
    (q : β → Bool)
    (hq : ∀ r : α × Option β,
      fpred r = (match r.2 with | some b => q b | none => false))
    (h : ∀ a ∈ ls, (rs.filter (fun b => cond a b)).length ≤ 1) :
    ((leftJoinOpt ls rs cond).filter fpred).length =
      (ls.filter (fun a => rs.any (fun b => cond a b && q b))).length := by
  rw [List.filter_congr (fun r _ => hq r)]
  exact filter_snd_leftJoinOpt_length ls rs cond q h

theorem deptSubjectsQuery_length (db : DB) (dId : Nat)
    (hndS : (db.subjects.map (fun s => s.id)).Nodup) :
    (deptSubjectsQuery db ((dId : ℕ) : ℚ)).length =
      (db.subjects.filter (fun s => s.departmentId == dId)).length := by
  unfold deptSubjectsQuery
  rw [length_sortByKeyDesc,
    length_filterMap_of_isSome _ _ (fun g hg => by
      cases hgs : g.2 with
      | nil => exact absurd hgs (mem_groupPairs_ne_nil _ _ g hg)
      | cons r rest => simp [hgs]),
    filter_fst_leftJoinOpt,
    length_groupPairs_leftJoin (fun (s : Subject) => s.id) _ db.classes _
      (List.Nodup.sublist (List.Sublist.map _ (List.filter_sublist _)) hndS)]
  congr 1
  apply List.filter_congr
  intro s _
  exact ratIsNat_natCast dId s.departmentId

theorem deptClassesQuery_length (db : DB) (dId : Nat)
    (hndS : (db.subjects.map (fun s => s.id)).Nodup)
    (hndU : (db.users.map (fun u => u.id)).Nodup) :
    (deptClassesQuery db ((dId : ℕ) : ℚ)).length =
      (db.classes.filter (fun c =>
        db.subjects.any (fun s =>
          (c.subjectId == s.id) && (s.departmentId == dId)))).length := by
  unfold deptClassesQuery
  rw [length_sortByKeyDesc, List.length_map, filter_fst_leftJoinOpt,
    length_leftJoinOpt_unique _ db.users _ (fun cs _ =>
      filter_length_le_one_of_nodup_map (fun u => u.id) db.users hndU _
        cs.1.teacherId (fun u hu => (beq_iff_eq.1 hu).symm)),
    filter_snd_leftJoinOpt_length_pred db.classes db.subjects _
      (deptClassFilter ((dId : ℕ) : ℚ))
      (fun s => ratIsNat ((dId : ℕ) : ℚ) s.departmentId)
      (fun r => by cases hr2 : r.2 <;> simp [deptClassFilter, hr2])
      (fun c _ =>
        filter_length_le_one_of_nodup_map (fun s => s.id) db.subjects hndS _
          c.subjectId (fun s hs => (beq_iff_eq.1 hs).symm))]
  congr 1
  apply List.filter_congr
  intro c _
  congr 1
  funext s
  rw [ratIsNat_natCast dId s.departmentId]

/-! ## Last-page arithmetic -/

theorem offset_add_limit_le (p l t : ℕ) (hp : 1 ≤ p) (hl : 1 ≤ l)
    (h : p < (t + l - 1) / l) : (p - 1) * l + l ≤ t := by
  obtain ⟨p0, rfl⟩ : ∃ p0, p = p0 + 1 := ⟨p - 1, by omega⟩
  have hdm := Nat.div_add_mod (t + l - 1) l
  have hmod : (t + l - 1) % l < l := Nat.mod_lt _ (by omega)
  have hmul : (p0 + 2) * l ≤ ((t + l - 1) / l) * l :=
    Nat.mul_le_mul_right l (by omega)
  have hcomm : ((t + l - 1) / l) * l = l * ((t + l - 1) / l) :=
    Nat.mul_comm _ _
  have hexp : (p0 + 2) * l = p0 * l + 2 * l := by ring
  have hgoal : (p0 + 1 - 1) * l = p0 * l := by simp
  rw [hgoal]
  omega

/-! ## Integer-input clamping -/

theorem jsMax1_int (z : ℤ) :
    jsMax1 (.num (z : ℚ)) = .num (((1 ⊔ z).toNat : ℕ) : ℚ) := by
  show JsNum.num (if (z : ℚ) < 1 then 1 else (z : ℚ)) =
    JsNum.num (((1 ⊔ z).toNat : ℕ) : ℚ)
  congr 1
  by_cases h : (z : ℚ) < 1
  · rw [if_pos h]
    have hz : z < 1 := by exact_mod_cast h
    have h1 : (1 ⊔ z) = 1 := by omega
    rw [h1]
    norm_num
  · rw [if_neg h]
    have hz : 1 ≤ z := by
      have := not_lt.1 h
      exact_mod_cast this
    have h1 : (1 ⊔ z) = z := by omega
    rw [h1]
    have h0 : ((z.toNat : ℕ) : ℤ) = z := Int.toNat_of_nonneg (by omega)
    exact_mod_cast (congrArg (fun x : ℤ => (x : ℚ)) h0).symm

theorem toNat_sup_one_pos (z : ℤ) : 1 ≤ (1 ⊔ z).toNat := by
  omega

theorem usersIndexCore_int (db : DB) (search role : Option String) (z w : ℤ) :
    usersIndexCore db search role (.num (z : ℚ)) (.num (w : ℚ)) =
      usersIndexCore db search role
        (.num (((1 ⊔ z).toNat : ℕ) : ℚ)) (.num (((1 ⊔ w).toNat : ℕ) : ℚ)) := by
  unfold usersIndexCore
  rw [jsMax1_int z, jsMax1_int w, jsMax1_nat _ (toNat_sup_one_pos z),
    jsMax1_nat _ (toNat_sup_one_pos w)]

theorem subjectsIndexCore_int (db : DB) (search department : Option String)
    (z w : ℤ) :
    subjectsIndexCore db search department (.num (z : ℚ)) (.num (w : ℚ)) =
      subjectsIndexCore db search department
        (.num (((1 ⊔ z).toNat : ℕ) : ℚ)) (.num (((1 ⊔ w).toNat : ℕ) : ℚ)) := by
  unfold subjectsIndexCore
  rw [jsMax1_int z, jsMax1_int w, jsMax1_nat _ (toNat_sup_one_pos z),
    jsMax1_nat _ (toNat_sup_one_pos w)]

theorem departmentsIndexCore_int (db : DB) (search : Option String) (z w : ℤ) :
    departmentsIndexCore db search (.num (z : ℚ)) (.num (w : ℚ)) =
      departmentsIndexCore db search
        (.num (((1 ⊔ z).toNat : ℕ) : ℚ)) (.num (((1 ⊔ w).toNat : ℕ) : ℚ)) := by
  unfold departmentsIndexCore
  rw [jsMax1_int z, jsMax1_int w, jsMax1_nat _ (toNat_sup_one_pos z),
    jsMax1_nat _ (toNat_sup_one_pos w)]

theorem classesIndexCore_int (db : DB) (search subject teacher : Option String)
    (z w : ℤ) :
    classesIndexCore db search subject teacher (.num (z : ℚ)) (.num (w : ℚ)) =
      classesIndexCore db search subject teacher
        (.num (((1 ⊔ z).toNat : ℕ) : ℚ)) (.num (((1 ⊔ w).toNat : ℕ) : ℚ)) := by
  unfold classesIndexCore
  rw [jsMax1_int z, jsMax1_int w, jsMax1_nat _ (toNat_sup_one_pos z),
    jsMax1_nat _ (toNat_sup_one_pos w)]

/-! ## Claim theorems -/

/-- Claim C1 (amended): for every user detail request on an existing user,
if the fetched role is `teacher` the response data object has no top-level
`enrollments` key, and if the role is `student` it has no top-level
`departments` key.  (As frozen, the claim instead asserted no top-level
`classes` key for students; the code does emit one — see the
counterexample.) -/
theorem spec_C1 (db : DB) (uid : String) (u : User)
    (hfound : getUserRow db uid = some u) :
    (u.role = .teacher → "enrollments" ∉ userDetailDataKeys db uid) ∧
    (u.role = .student → "departments" ∉ userDetailDataKeys db uid) := by
  unfold userDetailDataKeys usersShow
  rw [hfound]
  dsimp only
  constructor
  · intro ht
    rw [if_pos ht]
    simp
  · intro hs
    have hne : ¬ (u.role = Role.teacher) := by
      rw [hs]
      decide
    rw [if_neg hne, if_pos hs]
    simp

/-- Claim C1, counterexample to the claim as frozen: a detail request for a
student user returns a data object that does contain a top-level `classes`
key (the deduplicated classes aggregate of the student branch). -/
theorem spec_C1_counterexample :
    getUserRow exStudentOnlyDb "s1" = some exStudentUser ∧
    exStudentUser.role = .student ∧
    "classes" ∈ userDetailDataKeys exStudentOnlyDb "s1" := by
  decide

/-- Claim C1, witness: a concrete teacher detail response without an
`enrollments` key and a concrete student detail response without a
`departments` key. -/
theorem spec_C1_witness :
    "enrollments" ∉ userDetailDataKeys exTeacherOnlyDb "t1" ∧
    "departments" ∉ userDetailDataKeys exStudentOnlyDb "s1" :=
  ⟨(spec_C1 exTeacherOnlyDb "t1" exTeacherUser (by decide)).1 (by decide),
   (spec_C1 exStudentOnlyDb "s1" exStudentUser (by decide)).2 (by decide)⟩

/-- Claim C7: detail endpoints with numeric ids return 400 when the `:id`
segment does not convert to a finite JS number, and 404 when it denotes an
integer matching no row; the user detail endpoint (opaque string ids) returns
404 for a nonexistent id, for every contents of the other tables (the role
branch runs only after existence is confirmed). -/
theorem spec_C7 :
    (∀ (db : DB) (idStr : String), strToNumber idStr = .nan →
      subjectsShow db idStr = .badRequest "Invalid subject id" ∧
      departmentsShow db idStr = .badRequest "Invalid department id") ∧
    (∀ (db : DB) (idStr : String) (n : ℕ),
      strToNumber idStr = .num ((n : ℕ) : ℚ) →
      ((∀ s ∈ db.subjects, s.id ≠ n) →
        subjectsShow db idStr = .notFound "Subject not found") ∧
      ((∀ d ∈ db.departments, d.id ≠ n) →
        departmentsShow db idStr = .notFound "Department not found")) ∧
    (∀ (db : DB) (uid : String), (∀ u ∈ db.users, u.id ≠ uid) →
      usersShow db uid = .notFound "User not found") := by
  refine ⟨?_, ?_, ?_⟩
  · intro db idStr hparse
    constructor
    · unfold subjectsShow
      rw [hparse]
    · unfold departmentsShow
      rw [hparse]
  · intro db idStr n hparse
    constructor
    · intro habsent
      unfold subjectsShow
      rw [hparse]
      dsimp only
      have hnil : (leftJoinOpt db.subjects db.departments
          (fun s d => s.departmentId == d.id)).filter
          (fun r => ratIsNat ((n : ℕ) : ℚ) r.1.id) = [] := by
        apply List.filter_eq_nil_iff.2
        intro r hr
        rw [ratIsNat_natCast]
        simp only [beq_iff_eq]
        exact habsent r.1 (mem_fst_leftJoinOpt _ _ _ r hr)
      rw [hnil]
      rfl
    · intro habsent
      unfold departmentsShow
      rw [hparse]
      dsimp only
      have hnil : db.departments.filter
          (fun d => ratIsNat ((n : ℕ) : ℚ) d.id) = [] := by
        apply List.filter_eq_nil_iff.2
        intro d hd
        rw [ratIsNat_natCast]
        simp only [beq_iff_eq]
        exact habsent d hd
      rw [hnil]
      rfl
  · intro db uid habsent
    unfold usersShow getUserRow
    have hnil : db.users.filter (fun u => u.id == uid) = [] := by
      apply List.filter_eq_nil_iff.2
      intro u hu
      simp only [beq_iff_eq]
      exact habsent u hu
    rw [hnil]
    rfl

/-- Claim C7, witness: a non-numeric subject id yields 400, an unused numeric
department id yields 404, and an unknown user id yields 404. -/
theorem spec_C7_witness :
    subjectsShow exDb "abc" = .badRequest "Invalid subject id" ∧
    departmentsShow exDb "7" = .notFound "Department not found" ∧
    usersShow exDb "nobody" = .notFound "User not found" :=
  ⟨(spec_C7.1 exDb "abc" (by decide)).1,
   (spec_C7.2.1 exDb "7" 7 (by decide)).2 (by decide),
   spec_C7.2.2 exDb "nobody" (by decide)⟩

/-- Claim C8: for every database and every page/limit inputs, each of the
four list endpoints reports the same `pagination.total` for a request with no
filter parameters as for one with an empty-string search, because the JS
truthiness guard drops the empty string and the empty condition list leaves
the where-clause `undefined` (no WHERE restriction). -/
theorem spec_C8 (db : DB) (pv lv : JsNum) :
    usersWhere none none = none ∧
    usersWhere (some "") none = none ∧
    listRespTotal (usersIndexCore db none none pv lv) =
      listRespTotal (usersIndexCore db (some "") none pv lv) ∧
    listRespTotal (subjectsIndexCore db none none pv lv) =
      listRespTotal (subjectsIndexCore db (some "") none pv lv) ∧
    listRespTotal (departmentsIndexCore db none pv lv) =
      listRespTotal (departmentsIndexCore db (some "") pv lv) ∧
    listRespTotal (classesIndexCore db none none none pv lv) =
      listRespTotal (classesIndexCore db (some "") none none pv lv) :=
  ⟨rfl, rfl, rfl, rfl, rfl, rfl⟩

/-- Claim C9: every text search input is wrapped as percent, input, percent
with no escaping: the pattern string is exactly that concatenation, its
percent count exceeds the input's by exactly the two added wildcards, its
underscore count is the input's own, and the users search condition feeds the
pattern to ILIKE on name and email verbatim. -/
theorem spec_C9 (input : String) :
    ilikePattern input = "%" ++ input ++ "%" ∧
    (ilikePattern input).data.count '%' = input.data.count '%' + 2 ∧
    (ilikePattern input).data.count '_' = input.data.count '_' ∧
    usersSearchCond input =
      (fun u => ilike u.name (ilikePattern input) ||
        ilike u.email (ilikePattern input)) := by
  refine ⟨rfl, ?_, ?_, rfl⟩
  · show (("%" ++ input ++ "%").data.count '%') = input.data.count '%' + 2
    rw [String.data_append, String.data_append]
    simp [List.count_append, List.count_cons]
  · show (("%" ++ input ++ "%").data.count '_') = input.data.count '_'
    rw [String.data_append, String.data_append]
    simp [List.count_append, List.count_cons]

/-- Claim C10 (implicit): every list endpoint orders its returned data page
by the primary entity's `createdAt` descending — users, subjects (by the
subject's timestamp), departments (by the department's), classes (by the
class's). -/
theorem spec_C10 (db : DB) (search role department subject teacher : Option String)
    (pv lv : JsNum) :
    dataSortedBy (fun u : User => u.createdAt)
      (usersIndexCore db search role pv lv) ∧
    dataSortedBy (fun r : Subject × Option Department => r.1.createdAt)
      (subjectsIndexCore db search department pv lv) ∧
    dataSortedBy (fun r : DepartmentWithCount => r.department.createdAt)
      (departmentsIndexCore db search pv lv) ∧
    dataSortedBy (fun r : ClassListRow => r.cls.createdAt)
      (classesIndexCore db search subject teacher pv lv) := by
  refine ⟨?_, ?_, ?_, ?_⟩
  · unfold usersIndexCore
    dsimp only
    split
    · show (paginate _ _ (usersFullData db search role)).Pairwise _
      exact List.Pairwise.sublist
        ((List.take_sublist _ _).trans (List.drop_sublist _ _))
        (sorted_sortByKeyDesc _ _)
    · trivial
  · unfold subjectsIndexCore
    dsimp only
    split
    · show (paginate _ _ (subjectsFullData db search department)).Pairwise _
      exact List.Pairwise.sublist
        ((List.take_sublist _ _).trans (List.drop_sublist _ _))
        (sorted_sortByKeyDesc _ _)
    · trivial
  · unfold departmentsIndexCore
    dsimp only
    split
    · show (paginate _ _ (departmentsFullData db search)).Pairwise _
      exact List.Pairwise.sublist
        ((List.take_sublist _ _).trans (List.drop_sublist _ _))
        (sorted_sortByKeyDesc _ _)
    · trivial
  · unfold classesIndexCore
    dsimp only
    split
    · show (paginate _ _ (classesFullData db search subject teacher)).Pairwise _
      exact List.Pairwise.sublist
        ((List.take_sublist _ _).trans (List.drop_sublist _ _))
        (sorted_sortByKeyDesc _ _)
    · trivial

/-- Claim C4 (amended): each dedup loop builds, independently per child
relation with its own key-map, the first-seen-wins list of distinct child
records keyed by primary key, over exactly those join rows whose child is
non-null and has a nonzero key (the JS truthiness guard also skips key `0`;
as frozen the claim said exactly the null rows are skipped — see the
counterexample); the map keys are distinct and the reported sizes equal the
lengths of those deduplicated lists. -/
theorem spec_C4 (trows : List TeacherClassRow)
    (srows : List StudentEnrollmentRow)
    (h1 : keyFunctional teacherSubjectOf trows)
    (h2 : keyFunctional teacherDepartmentOf trows)
    (h3 : keyFunctional studentClassOf srows)
    (h4 : keyFunctional studentSubjectOf srows) :
    teacherMaps trows =
      (distinctByKeyFirst [] (keptChildren teacherSubjectOf trows),
       distinctByKeyFirst [] (keptChildren teacherDepartmentOf trows)) ∧
    studentMaps srows =
      (distinctByKeyFirst [] (keptChildren studentClassOf srows),
       distinctByKeyFirst [] (keptChildren studentSubjectOf srows)) ∧
    ((teacherMaps trows).1.map Prod.fst).Nodup ∧
    ((teacherMaps trows).2.map Prod.fst).Nodup ∧
    ((studentMaps srows).1.map Prod.fst).Nodup ∧
    ((studentMaps srows).2.map Prod.fst).Nodup ∧
    jsMapSize (teacherMaps trows).1 =
      (distinctByKeyFirst [] (keptChildren teacherSubjectOf trows)).length ∧
    jsMapSize (teacherMaps trows).2 =
      (distinctByKeyFirst [] (keptChildren teacherDepartmentOf trows)).length ∧
    jsMapSize (studentMaps srows).1 =
      (distinctByKeyFirst [] (keptChildren studentClassOf srows)).length ∧
    jsMapSize (studentMaps srows).2 =
      (distinctByKeyFirst [] (keptChildren studentSubjectOf srows)).length := by
  have ht := teacherMaps_eq trows
  have hs := studentMaps_eq srows
  have e1 := childFold_eq_distinct teacherSubjectOf trows h1
  have e2 := childFold_eq_distinct teacherDepartmentOf trows h2
  have e3 := childFold_eq_distinct studentClassOf srows h3
  have e4 := childFold_eq_distinct studentSubjectOf srows h4
  have hmt : teacherMaps trows =
      (distinctByKeyFirst [] (keptChildren teacherSubjectOf trows),
       distinctByKeyFirst [] (keptChildren teacherDepartmentOf trows)) := by
    rw [ht, e1, e2]
  have hms : studentMaps srows =
      (distinctByKeyFirst [] (keptChildren studentClassOf srows),
       distinctByKeyFirst [] (keptChildren studentSubjectOf srows)) := by
    rw [hs, e3, e4]
  refine ⟨hmt, hms, ?_, ?_, ?_, ?_, ?_, ?_, ?_, ?_⟩
  · rw [hmt]
    exact (distinctByKeyFirst_keys [] _).1
  · rw [hmt]
    exact (distinctByKeyFirst_keys [] _).1
  · rw [hms]
    exact (distinctByKeyFirst_keys [] _).1
  · rw [hms]
    exact (distinctByKeyFirst_keys [] _).1
  · rw [hmt]
    rfl
  · rw [hmt]
    rfl
  · rw [hms]
    rfl
  · rw [hms]
    rfl

/-- Claim C4, counterexample to the claim as frozen: a join row whose child
is present (non-null) but has primary key `0` is skipped by the flattener,
so the rows skipped are not exactly those with a null child key. -/
theorem spec_C4_counterexample :
    exRowZero.subject = some exSubjectZero ∧
    presentChildren teacherSubjectOf [exRowZero] = [(0, exSubjectZero)] ∧
    (teacherMaps [exRowZero]).1 = [] := by
  decide

/-- Claim C4, witness: the flattener on a concrete two-row teacher join
result (fan-out over one subject and department) and a one-row student
result. -/
theorem spec_C4_witness :
    teacherMaps exTeacherRows =
      (distinctByKeyFirst [] (keptChildren teacherSubjectOf exTeacherRows),
       distinctByKeyFirst [] (keptChildren teacherDepartmentOf exTeacherRows)) ∧
    studentMaps exStudentRows =
      (distinctByKeyFirst [] (keptChildren studentClassOf exStudentRows),
       distinctByKeyFirst [] (keptChildren studentSubjectOf exStudentRows)) :=
  ⟨(spec_C4 exTeacherRows exStudentRows (by decide) (by decide) (by decide)
      (by decide)).1,
   (spec_C4 exTeacherRows exStudentRows (by decide) (by decide) (by decide)
      (by decide)).2.1⟩

/-- Claim C3: whenever a list endpoint answers 200, its `pagination.total`
equals the number of rows of the full (unpaginated) filtered data relation,
a value independent of the page and limit inputs; for the departments
endpoint, whose count query runs on the bare table while the data query
joins and groups, this needs distinct department ids. -/
theorem spec_C3 (db : DB)
    (search role department subject teacher : Option String) (pv lv : JsNum) :
    (∀ data pg, usersIndexCore db search role pv lv = .ok data pg →
      pg.total = (usersFullData db search role).length) ∧
    (∀ data pg, subjectsIndexCore db search department pv lv = .ok data pg →
      pg.total = (subjectsFullData db search department).length) ∧
    ((db.departments.map (fun d => d.id)).Nodup →
      ∀ data pg, departmentsIndexCore db search pv lv = .ok data pg →
      pg.total = (departmentsFullData db search).length) ∧
    (∀ data pg, classesIndexCore db search subject teacher pv lv = .ok data pg →
      pg.total = (classesFullData db search subject teacher).length) := by
  refine ⟨?_, ?_, ?_, ?_⟩
  · intro data pg h
    unfold usersIndexCore at h
    dsimp only at h
    split at h
    · injection h with hdata hpg
      rw [← hpg]
      exact (usersFullData_length db search role).symm
    · exact ListResp.noConfusion h
  · intro data pg h
    unfold subjectsIndexCore at h
    dsimp only at h
    split at h
    · injection h with hdata hpg
      rw [← hpg]
      exact (subjectsFullData_length db search department).symm
    · exact ListResp.noConfusion h
  · intro hnd data pg h
    unfold departmentsIndexCore at h
    dsimp only at h
    split at h
    · injection h with hdata hpg
      rw [← hpg]
      exact (departmentsFullData_length db search hnd).symm
    · exact ListResp.noConfusion h
  · intro data pg h
    unfold classesIndexCore at h
    dsimp only at h
    split at h
    · injection h with hdata hpg
      rw [← hpg]
      exact (classesFullData_length db search subject teacher).symm
    · exact ListResp.noConfusion h

/-- Claim C3, witness: on the concrete database, the 200 responses of the
users and departments endpoints report totals equal to their full filtered
relation sizes. -/
theorem spec_C3_witness :
    (Pagination.mk ((1 : ℕ) : ℚ) ((10 : ℕ) : ℚ) 2 1).total =
      (usersFullData exDb none none).length ∧
    (Pagination.mk ((1 : ℕ) : ℚ) ((10 : ℕ) : ℚ) 1 1).total =
      (departmentsFullData exDb none).length :=
  ⟨(spec_C3 exDb none none none none none
      (.num ((1 : ℕ) : ℚ)) (.num ((10 : ℕ) : ℚ))).1
      [exTeacherUser, exStudentUser] ⟨((1 : ℕ) : ℚ), ((10 : ℕ) : ℚ), 2, 1⟩
      (by decide),
   (spec_C3 exDb none none none none none
      (.num ((1 : ℕ) : ℚ)) (.num ((10 : ℕ) : ℚ))).2.2.1 (by decide)
      [⟨exDepartment, 2⟩] ⟨((1 : ℕ) : ℚ), ((10 : ℕ) : ℚ), 1, 1⟩
      (by decide)⟩

/-- Claim C5: a department-detail request for an existing department returns
a `subjects` array whose length is the number of subjects in the department
and a `classes` array whose length is the number of classes under those
subjects — the join fan-out does not inflate the subjects list — and the
`totals` object echoes exactly those lengths (given unique subject and user
primary keys). -/
theorem spec_C5 (db : DB) (idStr : String) (dId : Nat)
    (hparse : strToNumber idStr = .num ((dId : ℕ) : ℚ))
    (hexists : ∃ d ∈ db.departments, d.id = dId)
    (hndS : (db.subjects.map (fun s => s.id)).Nodup)
    (hndU : (db.users.map (fun u => u.id)).Nodup) :
    deptDetailInfo (departmentsShow db idStr) =
      some ((db.subjects.filter (fun s => s.departmentId == dId)).length,
        (db.classes.filter (fun c => db.subjects.any (fun s =>
          (c.subjectId == s.id) && (s.departmentId == dId)))).length,
        (deptStudentsQuery db ((dId : ℕ) : ℚ)).length,
        ⟨(db.subjects.filter (fun s => s.departmentId == dId)).length,
         (db.classes.filter (fun c => db.subjects.any (fun s =>
           (c.subjectId == s.id) && (s.departmentId == dId)))).length,
         (deptStudentsQuery db ((dId : ℕ) : ℚ)).length⟩) := by
  unfold departmentsShow
  rw [hparse]
  dsimp only
  rcases hexists with ⟨d, hd, hdid⟩
  cases hh : (db.departments.filter (fun x => ratIsNat ((dId : ℕ) : ℚ) x.id)).head? with
  | none =>
    exfalso
    have hmem : d ∈ db.departments.filter (fun x => ratIsNat ((dId : ℕ) : ℚ) x.id) := by
      apply List.mem_filter.2
      refine ⟨hd, ?_⟩
      rw [ratIsNat_natCast]
      simp [hdid]
    rw [List.head?_eq_none_iff] at hh
    rw [hh] at hmem
    simp at hmem
  | some dep =>
    unfold deptDetailInfo
    dsimp only
    rw [deptSubjectsQuery_length db dId hndS, deptClassesQuery_length db dId hndS hndU]

/-- Claim C5, witness: on the concrete database, department 1 has 2 subjects
and 3 classes under them; the detail response arrays and totals agree. -/
theorem spec_C5_witness :
    deptDetailInfo (departmentsShow exDb "1") = some (2, 3, 1, ⟨2, 3, 1⟩) :=
  (spec_C5 exDb "1" 1 (by decide) (by decide) (by decide) (by decide)).trans
    (by decide)

/-- Claim C6: for every list endpoint with natural page `p ≥ 1` and limit
`l ≥ 1`, the 200 response pages the full data relation with offset
`(p-1)*l`, echoes page, limit and total, and reports
`totalPages = ceil(total/l)` (as the rounded-up natural division); the data
page holds at most `l` rows, and exactly `l` on every page before the last
(for departments, under unique department ids). -/
theorem spec_C6 (db : DB)
    (search role department subject teacher : Option String) (p l : ℕ)
    (hp : 1 ≤ p) (hl : 1 ≤ l) :
    (usersIndexCore db search role (.num ((p : ℕ) : ℚ)) (.num ((l : ℕ) : ℚ)) =
      .ok (paginate ((p - 1) * l) l (usersFullData db search role))
        ⟨((p : ℕ) : ℚ), ((l : ℕ) : ℚ), usersTotal db search role,
          (((usersTotal db search role + l - 1) / l : ℕ) : ℤ)⟩ ∧
      (paginate ((p - 1) * l) l (usersFullData db search role)).length ≤ l ∧
      (p < (usersTotal db search role + l - 1) / l →
        (paginate ((p - 1) * l) l (usersFullData db search role)).length = l)) ∧
    (subjectsIndexCore db search department
        (.num ((p : ℕ) : ℚ)) (.num ((l : ℕ) : ℚ)) =
      .ok (paginate ((p - 1) * l) l (subjectsFullData db search department))
        ⟨((p : ℕ) : ℚ), ((l : ℕ) : ℚ), subjectsTotal db search department,
          (((subjectsTotal db search department + l - 1) / l : ℕ) : ℤ)⟩ ∧
      (paginate ((p - 1) * l) l (subjectsFullData db search department)).length ≤ l ∧
      (p < (subjectsTotal db search department + l - 1) / l →
        (paginate ((p - 1) * l) l
          (subjectsFullData db search department)).length = l)) ∧
    (departmentsIndexCore db search (.num ((p : ℕ) : ℚ)) (.num ((l : ℕ) : ℚ)) =
      .ok (paginate ((p - 1) * l) l (departmentsFullData db search))
        ⟨((p : ℕ) : ℚ), ((l : ℕ) : ℚ), departmentsTotal db search,
          (((departmentsTotal db search + l - 1) / l : ℕ) : ℤ)⟩ ∧
      (paginate ((p - 1) * l) l (departmentsFullData db search)).length ≤ l ∧
      ((db.departments.map (fun d => d.id)).Nodup →
        p < (departmentsTotal db search + l - 1) / l →
        (paginate ((p - 1) * l) l (departmentsFullData db search)).length = l)) ∧
    (classesIndexCore db search subject teacher
        (.num ((p : ℕ) : ℚ)) (.num ((l : ℕ) : ℚ)) =
      .ok (paginate ((p - 1) * l) l (classesFullData db search subject teacher))
        ⟨((p : ℕ) : ℚ), ((l : ℕ) : ℚ), classesTotal db search subject teacher,
          (((classesTotal db search subject teacher + l - 1) / l : ℕ) : ℤ)⟩ ∧
      (paginate ((p - 1) * l) l
        (classesFullData db search subject teacher)).length ≤ l ∧
      (p < (classesTotal db search subject teacher + l - 1) / l →
        (paginate ((p - 1) * l) l
          (classesFullData db search subject teacher)).length = l)) := by
  refine ⟨⟨usersIndexCore_nat db search role p l hp hl,
      paginate_length_le _ _ _, ?_⟩,
    ⟨subjectsIndexCore_nat db search department p l hp hl,
      paginate_length_le _ _ _, ?_⟩,
    ⟨departmentsIndexCore_nat db search p l hp hl,
      paginate_length_le _ _ _, ?_⟩,
    ⟨classesIndexCore_nat db search subject teacher p l hp hl,
      paginate_length_le _ _ _, ?_⟩⟩
  · intro hlt
    apply paginate_length_full
    rw [usersFullData_length]
    exact offset_add_limit_le p l _ hp hl hlt
  · intro hlt
    apply paginate_length_full
    rw [subjectsFullData_length]
    exact offset_add_limit_le p l _ hp hl hlt
  · intro hnd hlt
    apply paginate_length_full
    rw [departmentsFullData_length db search hnd]
    exact offset_add_limit_le p l _ hp hl hlt
  · intro hlt
    apply paginate_length_full
    rw [classesFullData_length]
    exact offset_add_limit_le p l _ hp hl hlt

/-- Claim C6, witness: page 2 with limit 1 on the users endpoint of the
concrete database keeps at most one row, and page 1 of 2 holds exactly the
limit. -/
theorem spec_C6_witness :
    (paginate ((2 - 1) * 1) 1 (usersFullData exDb none none)).length ≤ 1 ∧
    (paginate ((1 - 1) * 1) 1 (usersFullData exDb none none)).length = 1 ∧
    (paginate ((1 - 1) * 1) 1 (departmentsFullData exDb none)).length ≤ 1 :=
  ⟨(spec_C6 exDb none none none none none 2 1 (by decide) (by decide)).1.2.1,
   (spec_C6 exDb none none none none none 1 1 (by decide) (by decide)).1.2.2
     (by decide),
   ((spec_C6 exDb none none none none none 1 1 (by decide)
     (by decide)).2.2.1).2.1⟩

/-- Claim C2 (amended): page and limit inputs are coerced to JS numbers and
clamped with `Math.max(1, ·)`: every numeric input yields an effective value
of at least 1 (so integer inputs `≤ 0` silently clamp to 1 and the request
succeeds, echoing the clamped values), but a non-numeric input coerces to
NaN, which `Math.max` propagates, so the effective value is NaN rather than
at least 1; fractional numeric inputs are kept as-is, not coerced to
integers (see the counterexample for both deviations from the claim as
frozen). -/
theorem spec_C2 :
    (∀ (dflt : ℚ) (s : Option String) (q : ℚ), paramNumber dflt s = .num q →
      jsMax1 (paramNumber dflt s) = .num (if q < 1 then 1 else q) ∧
        ¬ ((if q < 1 then 1 else q) < 1)) ∧
    (∀ (dflt : ℚ) (s : Option String), paramNumber dflt s = .nan →
      jsMax1 (paramNumber dflt s) = .nan) ∧
    (∀ (db : DB) (search role pageS limitS : Option String) (z w : ℤ),
      paramNumber 1 pageS = .num (z : ℚ) →
      paramNumber 10 limitS = .num (w : ℚ) →
      usersIndex db search role pageS limitS =
        .ok (paginate (((1 ⊔ z).toNat - 1) * (1 ⊔ w).toNat) ((1 ⊔ w).toNat)
            (usersFullData db search role))
          ⟨(((1 ⊔ z).toNat : ℕ) : ℚ), (((1 ⊔ w).toNat : ℕ) : ℚ),
            usersTotal db search role,
            (((usersTotal db search role + (1 ⊔ w).toNat - 1) /
              (1 ⊔ w).toNat : ℕ) : ℤ)⟩) ∧
    (∀ (db : DB) (search department pageS limitS : Option String) (z w : ℤ),
      paramNumber 1 pageS = .num (z : ℚ) →
      paramNumber 10 limitS = .num (w : ℚ) →
      listRespTotal (subjectsIndex db search department pageS limitS) =
        some (subjectsTotal db search department)) ∧
    (∀ (db : DB) (search pageS limitS : Option String) (z w : ℤ),
      paramNumber 1 pageS = .num (z : ℚ) →
      paramNumber 10 limitS = .num (w : ℚ) →
      listRespTotal (departmentsIndex db search pageS limitS) =
        some (departmentsTotal db search)) ∧
    (∀ (db : DB) (search subject teacher pageS limitS : Option String) (z w : ℤ),
      paramNumber 1 pageS = .num (z : ℚ) →
      paramNumber 10 limitS = .num (w : ℚ) →
      listRespTotal (classesIndex db search subject teacher pageS limitS) =
        some (classesTotal db search subject teacher)) := by
  refine ⟨?_, ?_, ?_, ?_, ?_, ?_⟩
  · intro dflt s q hq
    rw [hq]
    constructor
    · rfl
    · by_cases h1 : q < 1
      · simp [h1]
      · simp [h1]
  · intro dflt s hnan
    rw [hnan]
    rfl
  · intro db search role pageS limitS z w hz hw
    unfold usersIndex
    rw [hz, hw, usersIndexCore_int db search role z w,
      usersIndexCore_nat db search role _ _
        (toNat_sup_one_pos z) (toNat_sup_one_pos w)]
  · intro db search department pageS limitS z w hz hw
    unfold subjectsIndex
    rw [hz, hw, subjectsIndexCore_int db search department z w,
      subjectsIndexCore_nat db search department _ _
        (toNat_sup_one_pos z) (toNat_sup_one_pos w)]
    rfl
  · intro db search pageS limitS z w hz hw
    unfold departmentsIndex
    rw [hz, hw, departmentsIndexCore_int db search z w,
      departmentsIndexCore_nat db search _ _
        (toNat_sup_one_pos z) (toNat_sup_one_pos w)]
    rfl
  · intro db search subject teacher pageS limitS z w hz hw
    unfold classesIndex
    rw [hz, hw, classesIndexCore_int db search subject teacher z w,
      classesIndexCore_nat db search subject teacher _ _
        (toNat_sup_one_pos z) (toNat_sup_one_pos w)]
    rfl

/-- Claim C2, counterexample to the claim as frozen: on the non-numeric page
input `"abc"` the effective page is NaN — `Math.max(1, NaN)` is NaN, not a
value at least 1 — and the request fails with the generic 500 error rather
than being accepted; and the fractional limit input `"2.5"` stays the
non-integer 5/2 after coercion and clamping. -/
theorem spec_C2_counterexample :
    jsMax1 (paramNumber 1 (some "abc")) = .nan ∧
    usersIndex exDb none none (some "abc") (some "10") =
      .serverError "Failed to fetch users" ∧
    jsMax1 (paramNumber 10 (some "2.5")) = .num (Rat.divInt 5 2) ∧
    (Rat.divInt 5 2).den ≠ 1 := by
  decide

/-- Claim C2, witness: the zero page and negative limit inputs `"0"` and
`"-5"` are not rejected; they clamp to page 1, limit 1, echoed in the
pagination metadata. -/
theorem spec_C2_witness :
    usersIndex exDb none none (some "0") (some "-5") =
      .ok (paginate (((1 ⊔ (0 : ℤ)).toNat - 1) * (1 ⊔ (-5 : ℤ)).toNat)
          ((1 ⊔ (-5 : ℤ)).toNat) (usersFullData exDb none none))
        ⟨(((1 ⊔ (0 : ℤ)).toNat : ℕ) : ℚ), (((1 ⊔ (-5 : ℤ)).toNat : ℕ) : ℚ),
          usersTotal exDb none none,
          (((usersTotal exDb none none + (1 ⊔ (-5 : ℤ)).toNat - 1) /
            (1 ⊔ (-5 : ℤ)).toNat : ℕ) : ℤ)⟩ ∧
    listRespTotal (departmentsIndex exDb none (some "0") (some "-5")) =
      some (departmentsTotal exDb none) :=
  ⟨spec_C2.2.2.1 exDb none none (some "0") (some "-5") 0 (-5)
      (by decide) (by decide),
   spec_C2.2.2.2.2.1 exDb none (some "0") (some "-5") 0 (-5)
      (by decide) (by decide)⟩
